import Mathlib

/-!
# deepin-ocr: the dynamic OCR library loader and the engine facade

A shallow embedding of `src/engine/OCRDynamicLoader.{h,cpp}` and
`src/engine/OCREngine.{h,cpp}`.

* Pointers (`void*`, function pointers, `OCRHandle`, `TextBoxListC*`) are natural
  numbers, `0` being `nullptr`.
* C `int` values are integers.
* Everything outside the two classes (the file system, `QLibrary`, the native
  `dtk6ocr` library) is a parameter, the record `Env`.  The value a native entry
  returns may depend on every call made before it, so each native entry takes
  the history of events as its first argument.
* Every call through a function pointer, and every load or unload of the
  library image held in `m_library`, is appended to the loader's `trace`.
-/

namespace DeepinOcr

/-- A pointer value; `0` is `nullptr`. -/
abbrev Ptr := Nat

/-- The enum `HardwareType` of `OCRDynamicLoader.h`. -/
inductive HardwareType
  | HARDWARE_CPU_ANY
  | HARDWARE_GPU_VULKAN
deriving DecidableEq, Repr

/-- The numeric value of a `HardwareType` enumerator. -/
def HardwareType.toInt : HardwareType → Int
  | .HARDWARE_CPU_ANY => 0
  | .HARDWARE_GPU_VULKAN => 101

/-- The part of a `QImage` the two classes look at. -/
structure QImage where
  isNull : Bool
  width : Int
  height : Int
  format : Nat
  constBits : List Nat
deriving DecidableEq, Repr

/-- The value of `QImage::Format_RGB888`. -/
def Format_RGB888 : Nat := 13

/-- One interaction with the library image: a call through a resolved function
pointer with its arguments (for `ocr_create`, which has none, the handle it
returned), or a load or unload of the image in `m_library`. -/
inductive Event
  | library_load (fileName : String)
  | library_unload (fileName : String)
  | ocr_create (returned : Ptr)
  | ocr_destroy (handle : Ptr)
  | ocr_load_default_plugin (handle : Ptr)
  | ocr_plugin_ready (handle : Ptr)
  | ocr_set_hardware (handle : Ptr) (type : HardwareType) (device_id : Int)
  | ocr_set_max_threads (handle : Ptr) (count : Int)
  | ocr_set_language (handle : Ptr) (language : String)
  | ocr_set_image_file (handle : Ptr) (file_path : String)
  | ocr_set_image_data (handle : Ptr) (data : List Nat) (width height channels : Int)
  | ocr_analyze (handle : Ptr)
  | ocr_break_analyze (handle : Ptr)
  | ocr_is_running (handle : Ptr)
  | ocr_get_simple_result (handle : Ptr)
  | ocr_get_text_boxes (handle : Ptr)
  | ocr_get_version
  | ocr_get_api_version_major
  | ocr_get_api_version_minor
  | ocr_get_api_version_patch
deriving DecidableEq, Repr

/-- Whether an event is a call of a native entry point (as opposed to a load or
unload of the library image). -/
def Event.isNativeCall : Event → Bool
  | .library_load _ => false
  | .library_unload _ => false
  | _ => true

/-- The world outside the two classes: the platform, the file system and
`QLibrary`, and the native library behind the function pointers. -/
structure Env where
  /-- Models `QSysInfo::currentCpuArchitecture()` -/
  currentCpuArchitecture : String
  /-- Models `qgetenv("LD_LIBRARY_PATH")` -/
  LD_LIBRARY_PATH : String
  /-- Models `QLibraryInfo::path(QLibraryInfo::LibrariesPath)` -/
  LibrariesPath : String
  /-- Models `QLibrary testLib(name); testLib.load()` -/
  testLibLoad : String → Bool
  /-- Models `QDir(path).exists()` -/
  dirExists : String → Bool
  /-- Models `QDir(path).absoluteFilePath(name)` -/
  absoluteFilePath : String → String → String
  /-- Models `QFileInfo(p).exists()` -/
  fileExists : String → Bool
  /-- Models `QFileInfo(p).isReadable()` -/
  fileReadable : String → Bool
  /-- Models `m_library->load()` for the library file given -/
  load : String → Bool
  /-- Models `m_library->errorString()` after a failed load -/
  errorString : String → String
  /-- Models `m_library->resolve(symbol)` for the library file given -/
  resolve : String → String → Ptr
  /-- Models `QImage::convertToFormat` -/
  convertToFormat : QImage → Nat → QImage
  /-- whether the logging category `dmOcr` lets `qCInfo` evaluate its operands -/
  dmOcrInfoEnabled : Bool
  /-- whether `qDebug()` evaluates its operands (`QT_NO_DEBUG_OUTPUT` is not defined) -/
  qDebugOutput : Bool
  ocr_create : List Event → Ptr
  ocr_load_default_plugin : List Event → Ptr → Int
  ocr_plugin_ready : List Event → Ptr → Int
  ocr_set_hardware : List Event → Ptr → HardwareType → Int → Int
  ocr_set_max_threads : List Event → Ptr → Int → Int
  ocr_set_language : List Event → Ptr → String → Int
  ocr_set_image_file : List Event → Ptr → String → Int
  ocr_set_image_data : List Event → Ptr → List Nat → Int → Int → Int → Int
  ocr_analyze : List Event → Ptr → Int
  ocr_break_analyze : List Event → Ptr → Int
  ocr_is_running : List Event → Ptr → Int
  /-- a `const char*`: `none` is the null pointer -/
  ocr_get_simple_result : List Event → Ptr → Option String
  ocr_get_text_boxes : List Event → Ptr → Ptr
  /-- a `const char*`: `none` is the null pointer -/
  ocr_get_version : List Event → Option String
  ocr_get_api_version_major : List Event → Int
  ocr_get_api_version_minor : List Event → Int
  ocr_get_api_version_patch : List Event → Int

/-- The `QLibrary` object owned by `m_library`. -/
structure QLibrary where
  fileName : String
  isLoaded : Bool
deriving DecidableEq, Repr

/-- The data members of `class OCRDynamicLoader`, and the trace of events. -/
structure OCRDynamicLoader where
  m_library : Option QLibrary
  m_ocrHandle : Ptr
  m_lastError : String
  m_ocr_create : Ptr
  m_ocr_destroy : Ptr
  m_ocr_load_default_plugin : Ptr
  m_ocr_plugin_ready : Ptr
  m_ocr_set_hardware : Ptr
  m_ocr_set_max_threads : Ptr
  m_ocr_set_language : Ptr
  m_ocr_set_image_file : Ptr
  m_ocr_set_image_data : Ptr
  m_ocr_analyze : Ptr
  m_ocr_break_analyze : Ptr
  m_ocr_is_running : Ptr
  m_ocr_get_simple_result : Ptr
  m_ocr_get_text_boxes : Ptr
  m_ocr_free_text_boxes : Ptr
  m_ocr_get_version : Ptr
  m_ocr_get_api_version_major : Ptr
  m_ocr_get_api_version_minor : Ptr
  m_ocr_get_api_version_patch : Ptr
  trace : List Event
deriving DecidableEq, Repr

def MIN_API_VERSION_MAJOR : Int := 1
def MIN_API_VERSION_MINOR : Int := 0
def MIN_API_VERSION_PATCH : Int := 0

namespace OCRDynamicLoader

/-- The constructor `OCRDynamicLoader::OCRDynamicLoader()`. -/
def new : OCRDynamicLoader where
  m_library := none
  m_ocrHandle := 0
  m_lastError := ""
  m_ocr_create := 0
  m_ocr_destroy := 0
  m_ocr_load_default_plugin := 0
  m_ocr_plugin_ready := 0
  m_ocr_set_hardware := 0
  m_ocr_set_max_threads := 0
  m_ocr_set_language := 0
  m_ocr_set_image_file := 0
  m_ocr_set_image_data := 0
  m_ocr_analyze := 0
  m_ocr_break_analyze := 0
  m_ocr_is_running := 0
  m_ocr_get_simple_result := 0
  m_ocr_get_text_boxes := 0
  m_ocr_free_text_boxes := 0
  m_ocr_get_version := 0
  m_ocr_get_api_version_major := 0
  m_ocr_get_api_version_minor := 0
  m_ocr_get_api_version_patch := 0
  trace := []

/-- Models `OCRDynamicLoader::getLastError` -/
def getLastError (s : OCRDynamicLoader) : String := s.m_lastError

/-- Models `OCRDynamicLoader::setError` -/
def setError (s : OCRDynamicLoader) (error : String) : OCRDynamicLoader :=
  { s with m_lastError := error }

/-- Appending one event to the trace. -/
def record (s : OCRDynamicLoader) (e : Event) : OCRDynamicLoader :=
  { s with trace := s.trace ++ [e] }

/-- Models `OCRDynamicLoader::isLoaded`: `m_library && m_library->isLoaded()` -/
def isLoaded (s : OCRDynamicLoader) : Bool :=
  match s.m_library with
  | some lib => lib.isLoaded
  | none => false

/-- Models `OCRDynamicLoader::getSystemLibraryPaths` -/
def getSystemLibraryPaths (env : Env) : List String :=
  let paths := ["/usr/lib", "/usr/local/lib", "/lib"]
  let arch := env.currentCpuArchitecture
  let paths :=
    if arch = "x86_64" then
      paths ++ ["/usr/lib/x86_64-linux-gnu", "/usr/local/lib/x86_64-linux-gnu",
                "/lib/x86_64-linux-gnu"]
    else if arch.startsWith "arm" then
      if decide ("64".toList <:+: arch.toList) then
        paths ++ ["/usr/lib/aarch64-linux-gnu", "/usr/local/lib/aarch64-linux-gnu",
                  "/lib/aarch64-linux-gnu"]
      else
        paths ++ ["/usr/lib/arm-linux-gnueabihf", "/usr/local/lib/arm-linux-gnueabihf",
                  "/lib/arm-linux-gnueabihf"]
    else paths
  let ldPath := env.LD_LIBRARY_PATH
  let paths :=
    if ldPath ≠ "" then
      paths ++ (ldPath.splitOn ":").filter (fun p => p ≠ "")
    else paths
  paths ++ [env.LibrariesPath]

/-- Models `OCRDynamicLoader::getLibraryNames` -/
def getLibraryNames : List String :=
  ["libdtk6ocr.so.1.0.0", "libdtk6ocr.so.1", "libdtk6ocr.so", "libdtkocr.so",
   "dtk6ocr", "dtkocr"]

/-- The first loop of `findLibraryFile`: the first name `QLibrary` loads by
itself. -/
def findLibraryFile.autoSearch (env : Env) : List String → Option String
  | [] => none
  | name :: names =>
    if env.testLibLoad name then some name else findLibraryFile.autoSearch env names

/-- The inner loop of the manual search of `findLibraryFile`, in one directory. -/
def findLibraryFile.searchDir (env : Env) (path : String) : List String → Option String
  | [] => none
  | name :: names =>
    let fullPath := env.absoluteFilePath path name
    if env.fileExists fullPath && env.fileReadable fullPath then some fullPath
    else findLibraryFile.searchDir env path names

/-- The outer loop of the manual search of `findLibraryFile`. -/
def findLibraryFile.manualSearch (env : Env) (names : List String) :
    List String → Option String
  | [] => none
  | path :: paths =>
    if !env.dirExists path then findLibraryFile.manualSearch env names paths
    else
      match findLibraryFile.searchDir env path names with
      | some fullPath => some fullPath
      | none => findLibraryFile.manualSearch env names paths

/-- Models `OCRDynamicLoader::findLibraryFile`, over the lists of paths and names. -/
def findLibraryFileIn (env : Env) (paths names : List String) : String :=
  match findLibraryFile.autoSearch env names with
  | some name => name
  | none =>
    match findLibraryFile.manualSearch env names paths with
    | some fullPath => fullPath
    | none => ""

/-- Models `OCRDynamicLoader::findLibraryFile` -/
def findLibraryFile (env : Env) : String :=
  findLibraryFileIn env (getSystemLibraryPaths env) getLibraryNames

/-- The member a `FunctionInfo::ptr` of `loadFunctions` points at. -/
inductive Slot
  | m_ocr_create
  | m_ocr_destroy
  | m_ocr_load_default_plugin
  | m_ocr_plugin_ready
  | m_ocr_set_hardware
  | m_ocr_set_max_threads
  | m_ocr_set_language
  | m_ocr_set_image_file
  | m_ocr_set_image_data
  | m_ocr_analyze
  | m_ocr_break_analyze
  | m_ocr_is_running
  | m_ocr_get_simple_result
  | m_ocr_get_text_boxes
  | m_ocr_free_text_boxes
  | m_ocr_get_version
deriving DecidableEq, Repr

/-- Reading a member through its pointer: `*(func.ptr)`. -/
def getSlot (s : OCRDynamicLoader) : Slot → Ptr
  | .m_ocr_create => s.m_ocr_create
  | .m_ocr_destroy => s.m_ocr_destroy
  | .m_ocr_load_default_plugin => s.m_ocr_load_default_plugin
  | .m_ocr_plugin_ready => s.m_ocr_plugin_ready
  | .m_ocr_set_hardware => s.m_ocr_set_hardware
  | .m_ocr_set_max_threads => s.m_ocr_set_max_threads
  | .m_ocr_set_language => s.m_ocr_set_language
  | .m_ocr_set_image_file => s.m_ocr_set_image_file
  | .m_ocr_set_image_data => s.m_ocr_set_image_data
  | .m_ocr_analyze => s.m_ocr_analyze
  | .m_ocr_break_analyze => s.m_ocr_break_analyze
  | .m_ocr_is_running => s.m_ocr_is_running
  | .m_ocr_get_simple_result => s.m_ocr_get_simple_result
  | .m_ocr_get_text_boxes => s.m_ocr_get_text_boxes
  | .m_ocr_free_text_boxes => s.m_ocr_free_text_boxes
  | .m_ocr_get_version => s.m_ocr_get_version

/-- Writing a member through its pointer: `*(func.ptr) = p`. -/
def setSlot (s : OCRDynamicLoader) (p : Ptr) : Slot → OCRDynamicLoader
  | .m_ocr_create => { s with m_ocr_create := p }
  | .m_ocr_destroy => { s with m_ocr_destroy := p }
  | .m_ocr_load_default_plugin => { s with m_ocr_load_default_plugin := p }
  | .m_ocr_plugin_ready => { s with m_ocr_plugin_ready := p }
  | .m_ocr_set_hardware => { s with m_ocr_set_hardware := p }
  | .m_ocr_set_max_threads => { s with m_ocr_set_max_threads := p }
  | .m_ocr_set_language => { s with m_ocr_set_language := p }
  | .m_ocr_set_image_file => { s with m_ocr_set_image_file := p }
  | .m_ocr_set_image_data => { s with m_ocr_set_image_data := p }
  | .m_ocr_analyze => { s with m_ocr_analyze := p }
  | .m_ocr_break_analyze => { s with m_ocr_break_analyze := p }
  | .m_ocr_is_running => { s with m_ocr_is_running := p }
  | .m_ocr_get_simple_result => { s with m_ocr_get_simple_result := p }
  | .m_ocr_get_text_boxes => { s with m_ocr_get_text_boxes := p }
  | .m_ocr_free_text_boxes => { s with m_ocr_free_text_boxes := p }
  | .m_ocr_get_version => { s with m_ocr_get_version := p }

/-- The local `struct FunctionInfo` of `loadFunctions`. -/
structure FunctionInfo where
  ptr : Slot
  name : String
  required : Bool
deriving DecidableEq, Repr

/-- The array `functions[]` of `loadFunctions`. -/
def functions : List FunctionInfo :=
  [ ⟨.m_ocr_create, "ocr_create", true⟩,
    ⟨.m_ocr_destroy, "ocr_destroy", true⟩,
    ⟨.m_ocr_load_default_plugin, "ocr_load_default_plugin", true⟩,
    ⟨.m_ocr_plugin_ready, "ocr_plugin_ready", true⟩,
    ⟨.m_ocr_set_hardware, "ocr_set_hardware", false⟩,
    ⟨.m_ocr_set_max_threads, "ocr_set_max_threads", false⟩,
    ⟨.m_ocr_set_language, "ocr_set_language", false⟩,
    ⟨.m_ocr_set_image_file, "ocr_set_image_file", true⟩,
    ⟨.m_ocr_set_image_data, "ocr_set_image_data", true⟩,
    ⟨.m_ocr_analyze, "ocr_analyze", true⟩,
    ⟨.m_ocr_break_analyze, "ocr_break_analyze", false⟩,
    ⟨.m_ocr_is_running, "ocr_is_running", false⟩,
    ⟨.m_ocr_get_simple_result, "ocr_get_simple_result", true⟩,
    ⟨.m_ocr_get_text_boxes, "ocr_get_text_boxes", false⟩,
    ⟨.m_ocr_free_text_boxes, "ocr_free_text_boxes", false⟩,
    ⟨.m_ocr_get_version, "ocr_get_version", false⟩ ]

/-- Models `m_library->resolve(name)`.  The two callers, `loadFunctions` and
`loadVersionFunctions`, are private and run only after `m_library` has been
set; without a library object nothing resolves. -/
def resolve (env : Env) (s : OCRDynamicLoader) (name : String) : Ptr :=
  match s.m_library with
  | some lib => env.resolve lib.fileName name
  | none => 0

/-- The loop of `loadFunctions` over the entries still to be resolved. -/
def loadFunctions.loop (env : Env) : List FunctionInfo → OCRDynamicLoader →
    Bool × OCRDynamicLoader
  | [], s => (true, s)
  | func :: rest, s =>
    let s := setSlot s (resolve env s func.name) func.ptr
    if getSlot s func.ptr ≠ 0 then loadFunctions.loop env rest s
    else if func.required then
      (false, s.setError ("加载必需函数失败: " ++ func.name))
    else loadFunctions.loop env rest s

/-- Models `OCRDynamicLoader::loadFunctions` -/
def loadFunctions (env : Env) (s : OCRDynamicLoader) : Bool × OCRDynamicLoader :=
  loadFunctions.loop env functions s

/-- Models `OCRDynamicLoader::loadVersionFunctions` -/
def loadVersionFunctions (env : Env) (s : OCRDynamicLoader) : Bool × OCRDynamicLoader :=
  let s := { s with m_ocr_get_api_version_major := resolve env s "ocr_get_api_version_major" }
  let s := { s with m_ocr_get_api_version_minor := resolve env s "ocr_get_api_version_minor" }
  let s := { s with m_ocr_get_api_version_patch := resolve env s "ocr_get_api_version_patch" }
  let hasVersionFunctions :=
    decide (s.m_ocr_get_api_version_major ≠ 0) &&
    decide (s.m_ocr_get_api_version_minor ≠ 0) &&
    decide (s.m_ocr_get_api_version_patch ≠ 0)
  (hasVersionFunctions, s)

/-- Models `OCRDynamicLoader::isAPICompatible` -/
def isAPICompatible (env : Env) (s : OCRDynamicLoader) : Bool × OCRDynamicLoader :=
  if s.m_ocr_get_api_version_major = 0 ∨ s.m_ocr_get_api_version_minor = 0 ∨
      s.m_ocr_get_api_version_patch = 0 then
    (true, s)
  else
    let major := env.ocr_get_api_version_major s.trace
    let s := s.record .ocr_get_api_version_major
    let minor := env.ocr_get_api_version_minor s.trace
    let s := s.record .ocr_get_api_version_minor
    let patch := env.ocr_get_api_version_patch s.trace
    let s := s.record .ocr_get_api_version_patch
    if major > MIN_API_VERSION_MAJOR then (true, s)
    else if major < MIN_API_VERSION_MAJOR then (false, s)
    else if minor > MIN_API_VERSION_MINOR then (true, s)
    else if minor < MIN_API_VERSION_MINOR then (false, s)
    else (decide (patch ≥ MIN_API_VERSION_PATCH), s)

/-- The text of a `const char*` passed to `QString::arg`. -/
def cstr : Option String → String
  | some t => t
  | none => ""

/-- Models `OCRDynamicLoader::getAPIVersionInfo` -/
def getAPIVersionInfo (env : Env) (s : OCRDynamicLoader) : String × OCRDynamicLoader :=
  if s.m_ocr_get_api_version_major = 0 ∨ s.m_ocr_get_api_version_minor = 0 ∨
      s.m_ocr_get_api_version_patch = 0 then
    if s.m_ocr_get_version ≠ 0 then
      let version := env.ocr_get_version s.trace
      let s := s.record .ocr_get_version
      ("库版本: " ++ cstr version ++ " (无API版本信息)", s)
    else ("版本信息不可用", s)
  else
    let major := env.ocr_get_api_version_major s.trace
    let s := s.record .ocr_get_api_version_major
    let minor := env.ocr_get_api_version_minor s.trace
    let s := s.record .ocr_get_api_version_minor
    let patch := env.ocr_get_api_version_patch s.trace
    let s := s.record .ocr_get_api_version_patch
    let info := "API版本: " ++ toString major ++ "." ++ toString minor ++ "." ++ toString patch
    if s.m_ocr_get_version ≠ 0 then
      let version := env.ocr_get_version s.trace
      let s := s.record .ocr_get_version
      (info ++ " (库版本: " ++ cstr version ++ ")", s)
    else (info, s)

/-- Models `OCRDynamicLoader::destroyOCR` -/
def destroyOCR (s : OCRDynamicLoader) : OCRDynamicLoader :=
  if s.m_ocrHandle ≠ 0 ∧ s.m_ocr_destroy ≠ 0 then
    let s := s.record (.ocr_destroy s.m_ocrHandle)
    { s with m_ocrHandle := 0 }
  else s

/-- Models `OCRDynamicLoader::unloadLibrary` -/
def unloadLibrary (s : OCRDynamicLoader) : OCRDynamicLoader :=
  let s := if s.m_ocrHandle ≠ 0 then destroyOCR s else s
  let s :=
    match s.m_library with
    | some lib => if lib.isLoaded then s.record (.library_unload lib.fileName) else s
    | none => s
  { s with
    m_library := none
    m_ocr_create := 0
    m_ocr_destroy := 0
    m_ocr_load_default_plugin := 0
    m_ocr_plugin_ready := 0
    m_ocr_set_hardware := 0
    m_ocr_set_max_threads := 0
    m_ocr_set_language := 0
    m_ocr_set_image_file := 0
    m_ocr_set_image_data := 0
    m_ocr_analyze := 0
    m_ocr_break_analyze := 0
    m_ocr_is_running := 0
    m_ocr_get_simple_result := 0
    m_ocr_get_text_boxes := 0
    m_ocr_free_text_boxes := 0
    m_ocr_get_version := 0
    m_ocr_get_api_version_major := 0
    m_ocr_get_api_version_minor := 0
    m_ocr_get_api_version_patch := 0
    m_lastError := "" }

/-- Models `OCRDynamicLoader::loadLibrary`.  The operand `getAPIVersionInfo()` of the
closing `qDebug()` line is evaluated when `qDebug()` output is compiled in. -/
def loadLibrary (env : Env) (s : OCRDynamicLoader) : Bool × OCRDynamicLoader :=
  if s.isLoaded then (true, s)
  else
    let libraryPath := findLibraryFile env
    if libraryPath = "" then (false, s.setError "未找到dtk6ocr库文件")
    else
      let s := { s with m_library := some ⟨libraryPath, false⟩ }
      if !env.load libraryPath then
        let s := s.setError ("加载库失败: " ++ env.errorString libraryPath)
        (false, { s with m_library := none })
      else
        let s := { s with m_library := some ⟨libraryPath, true⟩ }
        let s := s.record (.library_load libraryPath)
        let loaded := loadFunctions env s
        if !loaded.1 then (false, unloadLibrary loaded.2)
        else
          let s := (loadVersionFunctions env loaded.2).2
          let compatible := isAPICompatible env s
          if !compatible.1 then
            (false, unloadLibrary (compatible.2.setError "API版本不兼容"))
          else (true, if env.qDebugOutput then (getAPIVersionInfo env compatible.2).2
            else compatible.2)

/-- The loader inside `loadLibrary` once `m_library->load()` has succeeded on the
file found. -/
def loadLibrary.opened (env : Env) (s : OCRDynamicLoader) : OCRDynamicLoader :=
  ({ s with m_library := some ⟨findLibraryFile env, true⟩ }).record
    (.library_load (findLibraryFile env))

/-- The result of the `loadFunctions()` call inside `loadLibrary`. -/
def loadLibrary.resolved (env : Env) (s : OCRDynamicLoader) : Bool × OCRDynamicLoader :=
  loadFunctions env (loadLibrary.opened env s)

/-- The loader inside `loadLibrary` after the `loadVersionFunctions()` call. -/
def loadLibrary.versioned (env : Env) (s : OCRDynamicLoader) : OCRDynamicLoader :=
  (loadVersionFunctions env (loadLibrary.resolved env s).2).2

/-- The result of the `isAPICompatible()` call inside `loadLibrary`. -/
def loadLibrary.checked (env : Env) (s : OCRDynamicLoader) : Bool × OCRDynamicLoader :=
  isAPICompatible env (loadLibrary.versioned env s)

/-- The destructor `OCRDynamicLoader::~OCRDynamicLoader()`. -/
def delete (s : OCRDynamicLoader) : OCRDynamicLoader := unloadLibrary s

/-- Models `OCRDynamicLoader::createOCR` -/
def createOCR (env : Env) (s : OCRDynamicLoader) : Bool × OCRDynamicLoader :=
  if s.m_ocrHandle ≠ 0 then (true, s)
  else if s.m_ocr_create = 0 then (false, s.setError "ocr_create函数未加载")
  else
    let handle := env.ocr_create s.trace
    let s := s.record (.ocr_create handle)
    let s := { s with m_ocrHandle := handle }
    if s.m_ocrHandle = 0 then (false, s.setError "创建OCR实例失败")
    else (true, s)

/-- Models `OCRDynamicLoader::loadDefaultPlugin` -/
def loadDefaultPlugin (env : Env) (s : OCRDynamicLoader) : Bool × OCRDynamicLoader :=
  if s.m_ocrHandle = 0 then (false, s.setError "OCR实例未创建")
  else if s.m_ocr_load_default_plugin = 0 then
    (false, s.setError "ocr_load_default_plugin函数未加载")
  else
    let result := env.ocr_load_default_plugin s.trace s.m_ocrHandle
    let s := s.record (.ocr_load_default_plugin s.m_ocrHandle)
    if result = 0 then
      (false, s.setError ("加载默认插件失败，错误代码: " ++ toString result))
    else (true, s)

/-- Models `OCRDynamicLoader::pluginReady` -/
def pluginReady (env : Env) (s : OCRDynamicLoader) : Bool × OCRDynamicLoader :=
  if s.m_ocrHandle = 0 ∨ s.m_ocr_plugin_ready = 0 then (false, s)
  else
    let result := env.ocr_plugin_ready s.trace s.m_ocrHandle
    (decide (result ≠ 0), s.record (.ocr_plugin_ready s.m_ocrHandle))

/-- Models `OCRDynamicLoader::setHardware` -/
def setHardware (env : Env) (type : HardwareType) (deviceId : Int) (s : OCRDynamicLoader) :
    Bool × OCRDynamicLoader :=
  if s.m_ocrHandle = 0 then (false, s.setError "OCR实例未创建")
  else if s.m_ocr_set_hardware = 0 then (true, s)
  else
    let result := env.ocr_set_hardware s.trace s.m_ocrHandle type deviceId
    let s := s.record (.ocr_set_hardware s.m_ocrHandle type deviceId)
    if result = 0 then
      (false, s.setError ("设置硬件类型失败，错误代码: " ++ toString result))
    else (true, s)

/-- Models `OCRDynamicLoader::setMaxThreads` -/
def setMaxThreads (env : Env) (count : Int) (s : OCRDynamicLoader) :
    Bool × OCRDynamicLoader :=
  if s.m_ocrHandle = 0 then (false, s.setError "OCR实例未创建")
  else if s.m_ocr_set_max_threads = 0 then (true, s)
  else
    let result := env.ocr_set_max_threads s.trace s.m_ocrHandle count
    let s := s.record (.ocr_set_max_threads s.m_ocrHandle count)
    if result = 0 then
      (false, s.setError ("设置最大线程数失败，错误代码: " ++ toString result))
    else (true, s)

/-- Models `OCRDynamicLoader::setLanguage` -/
def setLanguage (env : Env) (language : String) (s : OCRDynamicLoader) :
    Bool × OCRDynamicLoader :=
  if s.m_ocrHandle = 0 then (false, s.setError "OCR实例未创建")
  else if s.m_ocr_set_language = 0 then (true, s)
  else
    let result := env.ocr_set_language s.trace s.m_ocrHandle language
    let s := s.record (.ocr_set_language s.m_ocrHandle language)
    if result = 0 then
      (false, s.setError ("设置语言失败，错误代码: " ++ toString result))
    else (true, s)

/-- Models `OCRDynamicLoader::setImageFile` -/
def setImageFile (env : Env) (filePath : String) (s : OCRDynamicLoader) :
    Bool × OCRDynamicLoader :=
  if s.m_ocrHandle = 0 then (false, s.setError "OCR实例未创建")
  else if s.m_ocr_set_image_file = 0 then
    (false, s.setError "ocr_set_image_file函数未加载")
  else
    let result := env.ocr_set_image_file s.trace s.m_ocrHandle filePath
    let s := s.record (.ocr_set_image_file s.m_ocrHandle filePath)
    if result = 0 then
      (false, s.setError ("设置图像文件失败，错误代码: " ++ toString result))
    else (true, s)

/-- Models `OCRDynamicLoader::setImage` -/
def setImage (env : Env) (image : QImage) (s : OCRDynamicLoader) :
    Bool × OCRDynamicLoader :=
  if s.m_ocrHandle = 0 then (false, s.setError "OCR实例未创建")
  else if s.m_ocr_set_image_data = 0 then
    (false, s.setError "ocr_set_image_data函数未加载")
  else if image.isNull then (false, s.setError "图像数据无效")
  else
    let rgbImage := env.convertToFormat image Format_RGB888
    let result := env.ocr_set_image_data s.trace s.m_ocrHandle rgbImage.constBits
      rgbImage.width rgbImage.height 3
    let s := s.record (.ocr_set_image_data s.m_ocrHandle rgbImage.constBits
      rgbImage.width rgbImage.height 3)
    if result = 0 then
      (false, s.setError ("设置图像数据失败，错误代码: " ++ toString result))
    else (true, s)

/-- Models `OCRDynamicLoader::analyze` -/
def analyze (env : Env) (s : OCRDynamicLoader) : Bool × OCRDynamicLoader :=
  if s.m_ocrHandle = 0 then (false, s.setError "OCR实例未创建")
  else if s.m_ocr_analyze = 0 then (false, s.setError "ocr_analyze函数未加载")
  else
    let result := env.ocr_analyze s.trace s.m_ocrHandle
    let s := s.record (.ocr_analyze s.m_ocrHandle)
    if result = 0 then
      (false, s.setError ("OCR分析失败，错误代码: " ++ toString result))
    else (true, s)

/-- Models `OCRDynamicLoader::breakAnalyze` -/
def breakAnalyze (env : Env) (s : OCRDynamicLoader) : Bool × OCRDynamicLoader :=
  if s.m_ocrHandle = 0 then (false, s)
  else if s.m_ocr_break_analyze = 0 then (false, s)
  else
    let result := env.ocr_break_analyze s.trace s.m_ocrHandle
    let s := s.record (.ocr_break_analyze s.m_ocrHandle)
    (decide (result = 0), s)

/-- Models `OCRDynamicLoader::isRunning` -/
def isRunning (env : Env) (s : OCRDynamicLoader) : Bool × OCRDynamicLoader :=
  if s.m_ocrHandle = 0 ∨ s.m_ocr_is_running = 0 then (false, s)
  else
    let result := env.ocr_is_running s.trace s.m_ocrHandle
    (decide (result ≠ 0), s.record (.ocr_is_running s.m_ocrHandle))

/-- Models `OCRDynamicLoader::getSimpleResult`; the null `QString()` is the empty
string. -/
def getSimpleResult (env : Env) (s : OCRDynamicLoader) : String × OCRDynamicLoader :=
  if s.m_ocrHandle = 0 then ("", s.setError "OCR实例未创建")
  else if s.m_ocr_get_simple_result = 0 then
    ("", s.setError "ocr_get_simple_result函数未加载")
  else
    let result := env.ocr_get_simple_result s.trace s.m_ocrHandle
    let s := s.record (.ocr_get_simple_result s.m_ocrHandle)
    match result with
    | none => ("", s.setError "获取OCR结果失败")
    | some text => (text, s)

/-- Models `OCRDynamicLoader::getTextBoxes` -/
def getTextBoxes (env : Env) (s : OCRDynamicLoader) : Ptr × OCRDynamicLoader :=
  if s.m_ocrHandle = 0 then (0, s.setError "OCR实例未创建")
  else if s.m_ocr_get_text_boxes = 0 then (0, s)
  else
    let boxes := env.ocr_get_text_boxes s.trace s.m_ocrHandle
    (boxes, s.record (.ocr_get_text_boxes s.m_ocrHandle))

/-- Models `OCRDynamicLoader::getVersion` -/
def getVersion (env : Env) (s : OCRDynamicLoader) : String × OCRDynamicLoader :=
  if s.m_ocr_get_version = 0 then ("版本信息不可用", s)
  else
    let version := env.ocr_get_version s.trace
    let s := s.record .ocr_get_version
    match version with
    | some v => (v, s)
    | none => ("未知版本", s)

/-- A call of one public member function that can change the loader or reach the
library, with its arguments. -/
inductive Op
  | loadLibrary
  | unloadLibrary
  | isAPICompatible
  | getAPIVersionInfo
  | createOCR
  | destroyOCR
  | loadDefaultPlugin
  | pluginReady
  | setHardware (type : HardwareType) (deviceId : Int)
  | setMaxThreads (count : Int)
  | setLanguage (language : String)
  | setImageFile (filePath : String)
  | setImage (image : QImage)
  | analyze
  | breakAnalyze
  | isRunning
  | getSimpleResult
  | getTextBoxes
  | getVersion
deriving DecidableEq, Repr

/-- The loader after one public call, the returned value dropped. -/
def Op.run (env : Env) : Op → OCRDynamicLoader → OCRDynamicLoader
  | .loadLibrary, s => (s.loadLibrary env).2
  | .unloadLibrary, s => s.unloadLibrary
  | .isAPICompatible, s => (s.isAPICompatible env).2
  | .getAPIVersionInfo, s => (s.getAPIVersionInfo env).2
  | .createOCR, s => (s.createOCR env).2
  | .destroyOCR, s => s.destroyOCR
  | .loadDefaultPlugin, s => (s.loadDefaultPlugin env).2
  | .pluginReady, s => (s.pluginReady env).2
  | .setHardware type deviceId, s => (s.setHardware env type deviceId).2
  | .setMaxThreads count, s => (s.setMaxThreads env count).2
  | .setLanguage language, s => (s.setLanguage env language).2
  | .setImageFile filePath, s => (s.setImageFile env filePath).2
  | .setImage image, s => (s.setImage env image).2
  | .analyze, s => (s.analyze env).2
  | .breakAnalyze, s => (s.breakAnalyze env).2
  | .isRunning, s => (s.isRunning env).2
  | .getSimpleResult, s => (s.getSimpleResult env).2
  | .getTextBoxes, s => (s.getTextBoxes env).2
  | .getVersion, s => (s.getVersion env).2

/-- The loader after a sequence of public calls, each made in a world of its own
(the file system and the library may change between two calls). -/
def runOps : List (Env × Op) → OCRDynamicLoader → OCRDynamicLoader
  | [], s => s
  | (env, op) :: rest, s => runOps rest (op.run env s)

end OCRDynamicLoader

/-- The data members of `class OCREngine` the code uses (`ocrSetting` is never
touched); `ocrLoader` is `none` for the null pointer. -/
structure OCREngine where
  ocrLoader : Option OCRDynamicLoader
  m_isRunning : Bool
deriving DecidableEq, Repr

/-- The statement at which the constructor `OCREngine::OCREngine()` returns. -/
inductive InitExit
  | loadLibraryFailed
  | createOCRFailed
  | loadDefaultPluginFailed
  | completed
deriving DecidableEq, Repr

namespace OCREngine

/-- The constructor `OCREngine::OCREngine()`, with the `return` it leaves by.  The
operand `getVersion()` of `qCInfo(dmOcr)` is evaluated when the category is
enabled. -/
def init (env : Env) : InitExit × OCREngine :=
  let loaded := OCRDynamicLoader.new.loadLibrary env
  if !loaded.1 then (.loadLibraryFailed, ⟨some loaded.2, false⟩)
  else
    let l := if env.dmOcrInfoEnabled then (loaded.2.getVersion env).2 else loaded.2
    let created := l.createOCR env
    if !created.1 then (.createOCRFailed, ⟨some created.2, false⟩)
    else
      let plugin := created.2.loadDefaultPlugin env
      if !plugin.1 then (.loadDefaultPluginFailed, ⟨some plugin.2, false⟩)
      else
        let l := (plugin.2.pluginReady env).2
        let l := (l.setMaxThreads env 2).2
        let l :=
          if env.fileExists "/dev/mtgpu.0" then
            (l.setHardware env .HARDWARE_GPU_VULKAN 0).2
          else l
        (.completed, ⟨some l, false⟩)

/-- The engine the constructor `OCREngine::OCREngine()` leaves. -/
def new (env : Env) : OCREngine := (init env).2

/-- The destructor `OCREngine::~OCREngine()`.  The second component is the loader
as `delete ocrLoader` left it, kept for its trace. -/
def delete (e : OCREngine) : OCREngine × Option OCRDynamicLoader :=
  match e.ocrLoader with
  | some l =>
    let l := l.destroyOCR
    let l := l.unloadLibrary
    let l := l.delete
    ({ e with ocrLoader := none }, some l)
  | none => (e, none)

/-- Models `OCREngine::isRunning` -/
def isRunning (e : OCREngine) : Bool := e.m_isRunning

/-- Models `OCREngine::setImage` -/
def setImage (env : Env) (image : QImage) (e : OCREngine) : OCREngine :=
  match e.ocrLoader with
  | none => e
  | some l =>
    if !l.isLoaded then e
    else if image.isNull then e
    else
      let inputImage := env.convertToFormat image Format_RGB888
      { e with ocrLoader := some (l.setImage env inputImage).2 }

/-- Models `OCREngine::getRecogitionResult` -/
def getRecogitionResult (env : Env) (e : OCREngine) : String × OCREngine :=
  match e.ocrLoader with
  | none => ("", e)
  | some l =>
    if !l.isLoaded then ("", e)
    else
      let ready := l.pluginReady env
      if !ready.1 then ("", { e with ocrLoader := some ready.2 })
      else
        let success := ready.2.analyze env
        if !success.1 then ("", { ocrLoader := some success.2, m_isRunning := false })
        else
          let result := success.2.getSimpleResult env
          (result.1, { ocrLoader := some result.2, m_isRunning := false })

/-- Models `OCREngine::setLanguage` -/
def setLanguage (env : Env) (language : String) (e : OCREngine) : Bool × OCREngine :=
  match e.ocrLoader with
  | none => (false, e)
  | some l =>
    if !l.isLoaded then (false, e)
    else if language = "" then (false, e)
    else
      let running := l.isRunning env
      let l := if running.1 then (running.2.breakAnalyze env).2 else running.2
      let success := l.setLanguage env language
      (success.1, { e with ocrLoader := some success.2 })

/-- The events the engine's loader has recorded so far. -/
def trace (e : OCREngine) : List Event :=
  match e.ocrLoader with
  | some l => l.trace
  | none => []

/-- A call of one of the three operations the GUI makes on the engine. -/
inductive Call
  | setImage (image : QImage)
  | setLanguage (language : String)
  | getRecogitionResult
deriving DecidableEq, Repr

/-- The engine after one call, the returned value dropped. -/
def Call.run (env : Env) : Call → OCREngine → OCREngine
  | .setImage image, e => e.setImage env image
  | .setLanguage language, e => (e.setLanguage env language).2
  | .getRecogitionResult, e => (e.getRecogitionResult env).2

/-- The engine after a sequence of calls, each made in a world of its own. -/
def runCalls : List (Env × Call) → OCREngine → OCREngine
  | [], e => e
  | (env, c) :: rest, e => runCalls rest (c.run env e)

end OCREngine

/-! ## Predicates on loader states and sample worlds -/

/-- Every one of the 19 function pointers (the 16 table entries and the 3 version
queries) is null. -/
def OCRDynamicLoader.allNull (s : OCRDynamicLoader) : Prop :=
  s.m_ocr_create = 0 ∧ s.m_ocr_destroy = 0 ∧ s.m_ocr_load_default_plugin = 0 ∧
  s.m_ocr_plugin_ready = 0 ∧ s.m_ocr_set_hardware = 0 ∧ s.m_ocr_set_max_threads = 0 ∧
  s.m_ocr_set_language = 0 ∧ s.m_ocr_set_image_file = 0 ∧ s.m_ocr_set_image_data = 0 ∧
  s.m_ocr_analyze = 0 ∧ s.m_ocr_break_analyze = 0 ∧ s.m_ocr_is_running = 0 ∧
  s.m_ocr_get_simple_result = 0 ∧ s.m_ocr_get_text_boxes = 0 ∧
  s.m_ocr_free_text_boxes = 0 ∧ s.m_ocr_get_version = 0 ∧
  s.m_ocr_get_api_version_major = 0 ∧ s.m_ocr_get_api_version_minor = 0 ∧
  s.m_ocr_get_api_version_patch = 0

instance (s : OCRDynamicLoader) : Decidable s.allNull := by
  unfold OCRDynamicLoader.allNull; infer_instance

/-- Every entry marked `true` (required) in the table of `loadFunctions` is
non-null. -/
def OCRDynamicLoader.requiredResolved (s : OCRDynamicLoader) : Prop :=
  s.m_ocr_create ≠ 0 ∧ s.m_ocr_destroy ≠ 0 ∧ s.m_ocr_load_default_plugin ≠ 0 ∧
  s.m_ocr_plugin_ready ≠ 0 ∧ s.m_ocr_set_image_file ≠ 0 ∧ s.m_ocr_set_image_data ≠ 0 ∧
  s.m_ocr_analyze ≠ 0 ∧ s.m_ocr_get_simple_result ≠ 0

instance (s : OCRDynamicLoader) : Decidable s.requiredResolved := by
  unfold OCRDynamicLoader.requiredResolved; infer_instance

/-- The order "greater than or equal, lexicographically" on version triples, as
the specification words it: a higher major wins; equal majors compare the minor;
equal major and minor compare the patch, the minimum included. -/
def lexGe (v m : Int × Int × Int) : Prop :=
  v.1 > m.1 ∨ (v.1 = m.1 ∧ (v.2.1 > m.2.1 ∨ (v.2.1 = m.2.1 ∧ v.2.2 ≥ m.2.2)))

instance (v m : Int × Int × Int) : Decidable (lexGe v m) := by
  unfold lexGe; infer_instance

/-- A world in which the library is found by its first name, loads, exports
every symbol, reports API version 1.0.0, and every native call succeeds. -/
def sampleEnv : Env where
  currentCpuArchitecture := "x86_64"
  LD_LIBRARY_PATH := ""
  LibrariesPath := "/usr/lib/qt6"
  testLibLoad := fun _ => true
  dirExists := fun _ => true
  absoluteFilePath := fun dir name => dir ++ "/" ++ name
  fileExists := fun _ => true
  fileReadable := fun _ => true
  load := fun _ => true
  errorString := fun _ => "cannot load library"
  resolve := fun _ _ => 4096
  convertToFormat := fun image format => { image with format := format }
  dmOcrInfoEnabled := false
  qDebugOutput := true
  ocr_create := fun _ => 7
  ocr_load_default_plugin := fun _ _ => 1
  ocr_plugin_ready := fun _ _ => 1
  ocr_set_hardware := fun _ _ _ _ => 1
  ocr_set_max_threads := fun _ _ _ => 1
  ocr_set_language := fun _ _ _ => 1
  ocr_set_image_file := fun _ _ _ => 1
  ocr_set_image_data := fun _ _ _ _ _ _ => 1
  ocr_analyze := fun _ _ => 1
  ocr_break_analyze := fun _ _ => 1
  ocr_is_running := fun _ _ => 0
  ocr_get_simple_result := fun _ _ => some "text"
  ocr_get_text_boxes := fun _ _ => 9
  ocr_get_version := fun _ => some "1.0.0"
  ocr_get_api_version_major := fun _ => 1
  ocr_get_api_version_minor := fun _ => 0
  ocr_get_api_version_patch := fun _ => 0

/-- A loader with a library loaded, every pointer resolved and a handle held. -/
def sampleLoader : OCRDynamicLoader where
  m_library := some ⟨"libdtk6ocr.so.1.0.0", true⟩
  m_ocrHandle := 7
  m_lastError := ""
  m_ocr_create := 4096
  m_ocr_destroy := 4096
  m_ocr_load_default_plugin := 4096
  m_ocr_plugin_ready := 4096
  m_ocr_set_hardware := 4096
  m_ocr_set_max_threads := 4096
  m_ocr_set_language := 4096
  m_ocr_set_image_file := 4096
  m_ocr_set_image_data := 4096
  m_ocr_analyze := 4096
  m_ocr_break_analyze := 4096
  m_ocr_is_running := 4096
  m_ocr_get_simple_result := 4096
  m_ocr_get_text_boxes := 4096
  m_ocr_free_text_boxes := 4096
  m_ocr_get_version := 4096
  m_ocr_get_api_version_major := 4096
  m_ocr_get_api_version_minor := 4096
  m_ocr_get_api_version_patch := 4096
  trace := [.library_load "libdtk6ocr.so.1.0.0", .ocr_create 7]

/-- The sample world with a library that lacks the required symbol
`ocr_create`. -/
def envMissingCreate : Env :=
  { sampleEnv with resolve := fun _ name => if name = "ocr_create" then 0 else 4096 }

/-- The sample world with a library that reports API version 0.9.9. -/
def envOldVersion : Env :=
  { sampleEnv with
    ocr_get_api_version_major := fun _ => 0
    ocr_get_api_version_minor := fun _ => 9
    ocr_get_api_version_patch := fun _ => 9 }

/-- The loader with its trace and its last-error message blanked: the library
object, the handle and the 19 function pointers. -/
def OCRDynamicLoader.core (s : OCRDynamicLoader) : OCRDynamicLoader :=
  { s with trace := [], m_lastError := "" }

/-- The function table and the handle agree with the library object: with no
library loaded there is no library object, every pointer is null and no handle
is held; with a library loaded every required entry is resolved. -/
def OCRDynamicLoader.wellFormed (s : OCRDynamicLoader) : Prop :=
  (s.isLoaded = false → s.m_library = none ∧ s.allNull ∧ s.m_ocrHandle = 0) ∧
  (s.isLoaded = true → s.requiredResolved)

/-- The sample world with a library that lacks the one version-query symbol
`ocr_get_api_version_minor`. -/
def envNoVersionQuery : Env :=
  { sampleEnv with
    resolve := fun _ name => if name = "ocr_get_api_version_minor" then 0 else 4096 }

/-- The sample world with a native `ocr_create` that returns a null handle. -/
def envCreateFails : Env :=
  { sampleEnv with ocr_create := fun _ => 0 }

/-- The sample world with a native `ocr_load_default_plugin` that reports 0. -/
def envPluginFails : Env :=
  { sampleEnv with ocr_load_default_plugin := fun _ _ => 0 }

/-- A non-null image of one black pixel, already in the format RGB888. -/
def sampleImage : QImage := ⟨false, 1, 1, Format_RGB888, [0, 0, 0]⟩

/-- The candidate pairs `(dir, name)` in the order of the specification: every
name of the name list for the first path, then for the second path, and so on. -/
def candidatePairs : List String → List String → List (String × String)
  | [], _ => []
  | path :: paths, names => names.map (fun name => (path, name)) ++ candidatePairs paths names

/-- The first candidate pair, in the order of `candidatePairs`, whose directory
exists and whose file `dir/name` exists and is readable, as the specification
words the manual probe. -/
def firstReadablePair (env : Env) (paths names : List String) : Option (String × String) :=
  (candidatePairs paths names).find? (fun pair =>
    env.dirExists pair.1 && env.fileExists (pair.1 ++ "/" ++ pair.2) &&
      env.fileReadable (pair.1 ++ "/" ++ pair.2))

/-- The world of the specification's scenario: no library is found by name alone,
and `/usr/lib/libfoo.so` is the one file present and readable. -/
def envLibfoo : Env :=
  { sampleEnv with
    testLibLoad := fun _ => false
    dirExists := fun path => decide (path = "/usr/lib")
    fileExists := fun file => decide (file = "/usr/lib/libfoo.so")
    fileReadable := fun file => decide (file = "/usr/lib/libfoo.so") }

/-- The REQUIRED symbols, as the specification lists them. -/
def requiredSymbols : List String :=
  ["ocr_create", "ocr_destroy", "ocr_load_default_plugin", "ocr_plugin_ready",
   "ocr_set_image_file", "ocr_set_image_data", "ocr_analyze", "ocr_get_simple_result"]

/-- The OPTIONAL symbols of the function table, as the specification lists them. -/
def optionalSymbols : List String :=
  ["ocr_set_hardware", "ocr_set_max_threads", "ocr_set_language", "ocr_break_analyze",
   "ocr_is_running", "ocr_get_text_boxes", "ocr_free_text_boxes", "ocr_get_version"]

/-- The world `env` with the addresses of the OPTIONAL symbols of the function
table replaced by those `r` gives; everything else is as in `env`. -/
def withOptionalSymbols (env : Env) (r : String → String → Ptr) : Env :=
  { env with
    resolve := fun lib name =>
      if name ∈ optionalSymbols then r lib name else env.resolve lib name }

/-- The version gate as the specification words it, for the library file `path`
queried after the events `history`: a library that lacks one of the three
version-query symbols passes; otherwise the triple it reports must be
lexicographically at least the pinned minimum. -/
def versionGate (env : Env) (path : String) (history : List Event) : Bool :=
  if env.resolve path "ocr_get_api_version_major" = 0 ∨
      env.resolve path "ocr_get_api_version_minor" = 0 ∨
      env.resolve path "ocr_get_api_version_patch" = 0 then true
  else
    decide (lexGe
      (env.ocr_get_api_version_major history,
       env.ocr_get_api_version_minor (history ++ [.ocr_get_api_version_major]),
       env.ocr_get_api_version_patch
        (history ++ [.ocr_get_api_version_major] ++ [.ocr_get_api_version_minor]))
      (MIN_API_VERSION_MAJOR, MIN_API_VERSION_MINOR, MIN_API_VERSION_PATCH))

/-- The number of calls of the native `ocr_analyze` in a trace. -/
def analyzeCalls (trace : List Event) : Nat :=
  trace.countP (fun e => match e with | .ocr_analyze _ => true | _ => false)

/-- Whether an event creates or destroys a handle or unloads the library image. -/
def Event.isLifecycle : Event → Bool
  | .ocr_create _ => true
  | .ocr_destroy _ => true
  | .library_unload _ => true
  | _ => false

/-- One step of the handle discipline, `live` being the handle that is alive (`0`
for none): `ocr_create` is called only while no handle is alive and makes the
handle it returns alive; `ocr_destroy` is passed the non-null handle that is alive,
after which none is; the library image is unloaded only while no handle is alive.
The result is `none` when the event breaks the discipline. -/
def lifecycle.step (live : Ptr) : Event → Option Ptr
  | .ocr_create returned => if live = 0 then some returned else none
  | .ocr_destroy handle => if handle ≠ 0 ∧ handle = live then some 0 else none
  | .library_unload _ => if live = 0 then some 0 else none
  | _ => some live

/-- The handle discipline checked along a trace: the handle alive at the end, or
`none` when some event breaks the discipline. -/
def lifecycle : List Event → Ptr → Option Ptr
  | [], live => some live
  | e :: rest, live =>
    match lifecycle.step live e with
    | some next => lifecycle rest next
    | none => none

/-- The loader keeps its table consistent and its trace keeps the handle
discipline, the handle alive at the end of the trace being the one it holds. -/
def OCRDynamicLoader.disciplined (s : OCRDynamicLoader) : Prop :=
  s.wellFormed ∧ lifecycle s.trace 0 = some s.m_ocrHandle

/-- The sample world with a native `ocr_is_running` that reports 1. -/
def envRunning : Env :=
  { sampleEnv with ocr_is_running := fun _ _ => 1 }

/-- An engine whose loader is `sampleLoader`. -/
def sampleEngine : OCREngine := ⟨some sampleLoader, false⟩

/-- The engine the constructor builds from the sample library, after one
`setImage`. -/
def sampleRun : OCREngine :=
  OCREngine.runCalls [(sampleEnv, .setImage sampleImage)] (OCREngine.new sampleEnv)

/-! ## Properties -/

section Helpers

open OCRDynamicLoader

theorem core_fields {s t : OCRDynamicLoader} (h : t.core = s.core) :
    t.m_library = s.m_library ∧ t.m_ocrHandle = s.m_ocrHandle ∧
    t.isLoaded = s.isLoaded ∧ (t.allNull ↔ s.allNull) ∧
    (t.requiredResolved ↔ s.requiredResolved) ∧
    (∀ k, getSlot t k = getSlot s k) ∧
    t.m_ocr_get_api_version_major = s.m_ocr_get_api_version_major ∧
    t.m_ocr_get_api_version_minor = s.m_ocr_get_api_version_minor ∧
    t.m_ocr_get_api_version_patch = s.m_ocr_get_api_version_patch := by
  cases s; cases t
  simp only [core, OCRDynamicLoader.mk.injEq] at h
  simp only [isLoaded, allNull, requiredResolved]
  refine ⟨by simp [h], by simp [h], by simp [h], by simp [h], by simp [h], ?_,
    by simp [h], by simp [h], by simp [h]⟩
  intro k
  cases k <;> simp [getSlot, h]

theorem wellFormed_of_core {s t : OCRDynamicLoader} (h : t.core = s.core)
    (hs : s.wellFormed) : t.wellFormed := by
  obtain ⟨hl, hh, hi, ha, hr, -⟩ := core_fields h
  unfold wellFormed at *
  rw [hl, hh, hi, ha, hr]
  exact hs

theorem core_isAPICompatible (env : Env) (s : OCRDynamicLoader) :
    (s.isAPICompatible env).2.core = s.core := by
  unfold OCRDynamicLoader.isAPICompatible
  simp only [setError, record]
  repeat' split
  all_goals rfl

theorem core_getAPIVersionInfo (env : Env) (s : OCRDynamicLoader) :
    (s.getAPIVersionInfo env).2.core = s.core := by
  unfold OCRDynamicLoader.getAPIVersionInfo
  simp only [setError, record]
  repeat' split
  all_goals rfl

theorem core_loadDefaultPlugin (env : Env) (s : OCRDynamicLoader) :
    (s.loadDefaultPlugin env).2.core = s.core := by
  unfold OCRDynamicLoader.loadDefaultPlugin
  simp only [setError, record]
  repeat' split
  all_goals rfl

theorem core_pluginReady (env : Env) (s : OCRDynamicLoader) :
    (s.pluginReady env).2.core = s.core := by
  unfold OCRDynamicLoader.pluginReady
  simp only [setError, record]
  repeat' split
  all_goals rfl

theorem core_setHardware (env : Env) (type : HardwareType) (deviceId : Int) (s : OCRDynamicLoader) :
    (s.setHardware env type deviceId).2.core = s.core := by
  unfold OCRDynamicLoader.setHardware
  simp only [setError, record]
  repeat' split
  all_goals rfl

theorem core_setMaxThreads (env : Env) (count : Int) (s : OCRDynamicLoader) :
    (s.setMaxThreads env count).2.core = s.core := by
  unfold OCRDynamicLoader.setMaxThreads
  simp only [setError, record]
  repeat' split
  all_goals rfl

theorem core_setLanguage (env : Env) (language : String) (s : OCRDynamicLoader) :
    (s.setLanguage env language).2.core = s.core := by
  unfold OCRDynamicLoader.setLanguage
  simp only [setError, record]
  repeat' split
  all_goals rfl

theorem core_setImageFile (env : Env) (filePath : String) (s : OCRDynamicLoader) :
    (s.setImageFile env filePath).2.core = s.core := by
  unfold OCRDynamicLoader.setImageFile
  simp only [setError, record]
  repeat' split
  all_goals rfl

theorem core_setImage (env : Env) (image : QImage) (s : OCRDynamicLoader) :
    (s.setImage env image).2.core = s.core := by
  unfold OCRDynamicLoader.setImage
  simp only [setError, record]
  repeat' split
  all_goals rfl

theorem core_analyze (env : Env) (s : OCRDynamicLoader) :
    (s.analyze env).2.core = s.core := by
  unfold OCRDynamicLoader.analyze
  simp only [setError, record]
  repeat' split
  all_goals rfl

theorem core_breakAnalyze (env : Env) (s : OCRDynamicLoader) :
    (s.breakAnalyze env).2.core = s.core := by
  unfold OCRDynamicLoader.breakAnalyze
  simp only [setError, record]
  repeat' split
  all_goals rfl

theorem core_isRunning (env : Env) (s : OCRDynamicLoader) :
    (s.isRunning env).2.core = s.core := by
  unfold OCRDynamicLoader.isRunning
  simp only [setError, record]
  repeat' split
  all_goals rfl

theorem core_getSimpleResult (env : Env) (s : OCRDynamicLoader) :
    (s.getSimpleResult env).2.core = s.core := by
  unfold OCRDynamicLoader.getSimpleResult
  simp only [setError, record]
  repeat' split
  all_goals rfl

theorem core_getTextBoxes (env : Env) (s : OCRDynamicLoader) :
    (s.getTextBoxes env).2.core = s.core := by
  unfold OCRDynamicLoader.getTextBoxes
  simp only [setError, record]
  repeat' split
  all_goals rfl

theorem core_getVersion (env : Env) (s : OCRDynamicLoader) :
    (s.getVersion env).2.core = s.core := by
  unfold OCRDynamicLoader.getVersion
  simp only [setError, record]
  repeat' split
  all_goals rfl

theorem getSlot_setSlot_same (s : OCRDynamicLoader) (p : Ptr) (k : Slot) :
    getSlot (setSlot s p k) k = p := by
  cases k <;> rfl

theorem getSlot_setSlot_ne (s : OCRDynamicLoader) (p : Ptr) {k k' : Slot} (h : k ≠ k') :
    getSlot (setSlot s p k) k' = getSlot s k' := by
  cases k <;> cases k' <;> first | rfl | exact absurd rfl h

theorem setSlot_fields (s : OCRDynamicLoader) (p : Ptr) (k : Slot) :
    (setSlot s p k).m_library = s.m_library ∧ (setSlot s p k).m_ocrHandle = s.m_ocrHandle ∧
    (setSlot s p k).trace = s.trace ∧ (setSlot s p k).m_lastError = s.m_lastError ∧
    (setSlot s p k).m_ocr_get_api_version_major = s.m_ocr_get_api_version_major ∧
    (setSlot s p k).m_ocr_get_api_version_minor = s.m_ocr_get_api_version_minor ∧
    (setSlot s p k).m_ocr_get_api_version_patch = s.m_ocr_get_api_version_patch := by
  cases k <;> exact ⟨rfl, rfl, rfl, rfl, rfl, rfl, rfl⟩

theorem resolve_of_m_library {s t : OCRDynamicLoader} (env : Env) (name : String)
    (h : t.m_library = s.m_library) : resolve env t name = resolve env s name := by
  unfold resolve
  rw [h]

theorem loop_fields (env : Env) (fs : List FunctionInfo) (s : OCRDynamicLoader) :
    (loadFunctions.loop env fs s).2.m_library = s.m_library ∧
    (loadFunctions.loop env fs s).2.m_ocrHandle = s.m_ocrHandle ∧
    (loadFunctions.loop env fs s).2.trace = s.trace ∧
    (loadFunctions.loop env fs s).2.m_ocr_get_api_version_major =
      s.m_ocr_get_api_version_major ∧
    (loadFunctions.loop env fs s).2.m_ocr_get_api_version_minor =
      s.m_ocr_get_api_version_minor ∧
    (loadFunctions.loop env fs s).2.m_ocr_get_api_version_patch =
      s.m_ocr_get_api_version_patch ∧
    (∀ k, k ∉ fs.map (fun f => f.ptr) →
      getSlot (loadFunctions.loop env fs s).2 k = getSlot s k) := by
  induction fs generalizing s with
  | nil => exact ⟨rfl, rfl, rfl, rfl, rfl, rfl, fun _ _ => rfl⟩
  | cons f rest ih =>
    obtain ⟨h1, h2, h3, _, h5, h6, h7⟩ := setSlot_fields s (resolve env s f.name) f.ptr
    obtain ⟨i1, i2, i3, i4, i5, i6, i7⟩ := ih (setSlot s (resolve env s f.name) f.ptr)
    have hset : ∀ k, k ∉ (f :: rest).map (fun f => f.ptr) →
        getSlot (setSlot s (resolve env s f.name) f.ptr) k = getSlot s k := by
      intro k hk
      simp only [List.map_cons, List.mem_cons, not_or] at hk
      exact getSlot_setSlot_ne _ _ (fun e => hk.1 e.symm)
    have hrest : ∀ k, k ∉ (f :: rest).map (fun f => f.ptr) →
        k ∉ rest.map (fun f => f.ptr) := by
      intro k hk
      simp only [List.map_cons, List.mem_cons, not_or] at hk
      exact hk.2
    simp only [loadFunctions.loop]
    split_ifs
    · exact ⟨i1.trans h1, i2.trans h2, i3.trans h3, i4.trans h5, i5.trans h6, i6.trans h7,
        fun k hk => (i7 k (hrest k hk)).trans (hset k hk)⟩
    · exact ⟨h1, h2, h3, h5, h6, h7, fun k hk => hset k hk⟩
    · exact ⟨i1.trans h1, i2.trans h2, i3.trans h3, i4.trans h5, i5.trans h6, i6.trans h7,
        fun k hk => (i7 k (hrest k hk)).trans (hset k hk)⟩

theorem loop_true_iff (env : Env) (fs : List FunctionInfo) (s : OCRDynamicLoader) :
    (loadFunctions.loop env fs s).1 = true ↔
      ∀ f ∈ fs, f.required = true → resolve env s f.name ≠ 0 := by
  induction fs generalizing s with
  | nil => simp [loadFunctions.loop]
  | cons f rest ih =>
    have hres : ∀ n, resolve env (setSlot s (resolve env s f.name) f.ptr) n = resolve env s n :=
      fun n => resolve_of_m_library env n (setSlot_fields s _ f.ptr).1
    simp only [loadFunctions.loop, getSlot_setSlot_same, List.mem_cons, forall_eq_or_imp]
    split_ifs with h0 hreq
    · rw [ih]
      simp only [hres]
      exact ⟨fun h => ⟨fun _ => h0, h⟩, fun h => h.2⟩
    · simp only [Bool.false_eq_true, false_iff, not_and]
      intro h
      exact absurd (h hreq) (by simpa using h0)
    · rw [ih]
      simp only [hres]
      exact ⟨fun h => ⟨fun hr => absurd hr hreq, h⟩, fun h => h.2⟩

theorem loop_true_resolved (env : Env) (fs : List FunctionInfo) (s : OCRDynamicLoader)
    (hnd : (fs.map (fun f => f.ptr)).Nodup) (h : (loadFunctions.loop env fs s).1 = true) :
    ∀ f ∈ fs, f.required = true → getSlot (loadFunctions.loop env fs s).2 f.ptr ≠ 0 := by
  induction fs generalizing s with
  | nil => intro f hf; cases hf
  | cons f rest ih =>
    simp only [List.map_cons, List.nodup_cons] at hnd
    intro g hg hgreq
    simp only [loadFunctions.loop, getSlot_setSlot_same] at h ⊢
    split_ifs at h ⊢ with h0 hreq
    · rcases List.mem_cons.1 hg with rfl | hg
      · rw [(loop_fields env rest _).2.2.2.2.2.2 _ hnd.1, getSlot_setSlot_same]
        exact h0
      · exact ih _ hnd.2 h g hg hgreq
    · rcases List.mem_cons.1 hg with rfl | hg
      · exact absurd hgreq hreq
      · exact ih _ hnd.2 h g hg hgreq

theorem functions_nodup : (functions.map (fun f => f.ptr)).Nodup := by
  decide

theorem loadFunctions_true_requiredResolved (env : Env) (s : OCRDynamicLoader)
    (h : (loadFunctions env s).1 = true) : (loadFunctions env s).2.requiredResolved := by
  have key := loop_true_resolved env functions s functions_nodup h
  unfold loadFunctions
  refine ⟨?_, ?_, ?_, ?_, ?_, ?_, ?_, ?_⟩
  · exact key ⟨.m_ocr_create, "ocr_create", true⟩ (by simp [functions]) rfl
  · exact key ⟨.m_ocr_destroy, "ocr_destroy", true⟩ (by simp [functions]) rfl
  · exact key ⟨.m_ocr_load_default_plugin, "ocr_load_default_plugin", true⟩
      (by simp [functions]) rfl
  · exact key ⟨.m_ocr_plugin_ready, "ocr_plugin_ready", true⟩ (by simp [functions]) rfl
  · exact key ⟨.m_ocr_set_image_file, "ocr_set_image_file", true⟩ (by simp [functions]) rfl
  · exact key ⟨.m_ocr_set_image_data, "ocr_set_image_data", true⟩ (by simp [functions]) rfl
  · exact key ⟨.m_ocr_analyze, "ocr_analyze", true⟩ (by simp [functions]) rfl
  · exact key ⟨.m_ocr_get_simple_result, "ocr_get_simple_result", true⟩
      (by simp [functions]) rfl

theorem unloadLibrary_fields (s : OCRDynamicLoader) :
    s.unloadLibrary.m_library = none ∧ s.unloadLibrary.allNull ∧
    s.unloadLibrary.m_lastError = "" ∧ s.unloadLibrary.isLoaded = false ∧
    (s.m_ocrHandle = 0 ∨ s.m_ocr_destroy ≠ 0 → s.unloadLibrary.m_ocrHandle = 0) := by
  refine ⟨rfl, ⟨rfl, rfl, rfl, rfl, rfl, rfl, rfl, rfl, rfl, rfl, rfl, rfl, rfl, rfl, rfl,
    rfl, rfl, rfl, rfl⟩, rfl, rfl, ?_⟩
  intro h
  simp only [unloadLibrary, destroyOCR, record]
  by_cases h0 : s.m_ocrHandle = 0
  · simp only [h0, ne_eq, not_true_eq_false, if_false]
    split <;> [split; skip] <;> first | exact h0 | simp [h0]
  · have hd : s.m_ocr_destroy ≠ 0 := h.resolve_left h0
    simp only [ne_eq, h0, not_false_eq_true, hd, and_self, if_true]
    split <;> [split; skip] <;> rfl

theorem unloadLibrary_fixed (s : OCRDynamicLoader) (hl : s.m_library = none)
    (hh : s.m_ocrHandle = 0) (hn : s.allNull) (he : s.m_lastError = "") :
    s.unloadLibrary = s := by
  cases s
  simp only [allNull] at hl hh hn he
  obtain ⟨h1, h2, h3, h4, h5, h6, h7, h8, h9, h10, h11, h12, h13, h14, h15, h16, h17, h18,
    h19⟩ := hn
  subst hl hh he h1 h2 h3 h4 h5 h6 h7 h8 h9 h10 h11 h12 h13 h14 h15 h16 h17 h18 h19
  rfl

theorem wellFormed_unloaded {s : OCRDynamicLoader} (hl : s.m_library = none)
    (hn : s.allNull) (hh : s.m_ocrHandle = 0) : s.wellFormed := by
  refine ⟨fun _ => ⟨hl, hn, hh⟩, fun h => ?_⟩
  simp [isLoaded, hl] at h

theorem wellFormed_loaded {s : OCRDynamicLoader} (hl : s.isLoaded = true)
    (hr : s.requiredResolved) : s.wellFormed :=
  ⟨fun h => absurd (hl.symm.trans h) (by decide), fun _ => hr⟩

theorem wellFormed_new : OCRDynamicLoader.new.wellFormed :=
  wellFormed_unloaded rfl (by decide) rfl

theorem wellFormed_unloadLibrary {s : OCRDynamicLoader} (hs : s.wellFormed) :
    s.unloadLibrary.wellFormed := by
  obtain ⟨hl, hn, -, -, hh⟩ := unloadLibrary_fields s
  refine wellFormed_unloaded hl hn (hh ?_)
  cases hld : s.isLoaded
  · exact Or.inl (hs.1 hld).2.2
  · exact Or.inr (hs.2 hld).2.1

theorem loadVersionFunctions_fields (env : Env) (s : OCRDynamicLoader) :
    (loadVersionFunctions env s).2.m_library = s.m_library ∧
    (loadVersionFunctions env s).2.m_ocrHandle = s.m_ocrHandle ∧
    (loadVersionFunctions env s).2.trace = s.trace ∧
    (loadVersionFunctions env s).2.m_lastError = s.m_lastError ∧
    (∀ k, getSlot (loadVersionFunctions env s).2 k = getSlot s k) ∧
    (loadVersionFunctions env s).2.m_ocr_get_api_version_major =
      resolve env s "ocr_get_api_version_major" ∧
    (loadVersionFunctions env s).2.m_ocr_get_api_version_minor =
      resolve env s "ocr_get_api_version_minor" ∧
    (loadVersionFunctions env s).2.m_ocr_get_api_version_patch =
      resolve env s "ocr_get_api_version_patch" :=
  ⟨rfl, rfl, rfl, rfl, fun k => by cases k <;> rfl, rfl, rfl, rfl⟩

theorem requiredResolved_of_getSlot {s t : OCRDynamicLoader}
    (h : ∀ k, getSlot t k = getSlot s k) (hs : s.requiredResolved) : t.requiredResolved := by
  obtain ⟨h1, h2, h3, h4, h5, h6, h7, h8⟩ := hs
  have e1 : t.m_ocr_create = s.m_ocr_create := h .m_ocr_create
  have e2 : t.m_ocr_destroy = s.m_ocr_destroy := h .m_ocr_destroy
  have e3 : t.m_ocr_load_default_plugin = s.m_ocr_load_default_plugin :=
    h .m_ocr_load_default_plugin
  have e4 : t.m_ocr_plugin_ready = s.m_ocr_plugin_ready := h .m_ocr_plugin_ready
  have e5 : t.m_ocr_set_image_file = s.m_ocr_set_image_file := h .m_ocr_set_image_file
  have e6 : t.m_ocr_set_image_data = s.m_ocr_set_image_data := h .m_ocr_set_image_data
  have e7 : t.m_ocr_analyze = s.m_ocr_analyze := h .m_ocr_analyze
  have e8 : t.m_ocr_get_simple_result = s.m_ocr_get_simple_result :=
    h .m_ocr_get_simple_result
  unfold requiredResolved
  rw [e1, e2, e3, e4, e5, e6, e7, e8]
  exact ⟨h1, h2, h3, h4, h5, h6, h7, h8⟩

theorem loadLibrary_of_isLoaded (env : Env) (s : OCRDynamicLoader) (h : s.isLoaded = true) :
    s.loadLibrary env = (true, s) := by
  simp [loadLibrary, h]

theorem loadLibrary_of_not_isLoaded (env : Env) (s : OCRDynamicLoader)
    (h : s.isLoaded = false) :
    s.loadLibrary env =
      if findLibraryFile env = "" then (false, s.setError "未找到dtk6ocr库文件")
      else if env.load (findLibraryFile env) = false then
        (false, { s.setError ("加载库失败: " ++ env.errorString (findLibraryFile env)) with
          m_library := none })
      else if (loadLibrary.resolved env s).1 = false then
        (false, unloadLibrary (loadLibrary.resolved env s).2)
      else if (loadLibrary.checked env s).1 = false then
        (false, unloadLibrary ((loadLibrary.checked env s).2.setError "API版本不兼容"))
      else (true, if env.qDebugOutput then
        (getAPIVersionInfo env (loadLibrary.checked env s).2).2
        else (loadLibrary.checked env s).2) := by
  simp only [loadLibrary, h, Bool.false_eq_true, if_false, loadLibrary.checked,
    loadLibrary.versioned, loadLibrary.resolved, loadLibrary.opened, Bool.not_eq_true']
  rfl

theorem opened_fields (env : Env) (s : OCRDynamicLoader) :
    (loadLibrary.opened env s).m_library = some ⟨findLibraryFile env, true⟩ ∧
    (loadLibrary.opened env s).m_ocrHandle = s.m_ocrHandle ∧
    (loadLibrary.opened env s).trace = s.trace ++ [.library_load (findLibraryFile env)] :=
  ⟨rfl, rfl, rfl⟩

theorem resolved_fields (env : Env) (s : OCRDynamicLoader) :
    (loadLibrary.resolved env s).2.m_library = some ⟨findLibraryFile env, true⟩ ∧
    (loadLibrary.resolved env s).2.m_ocrHandle = s.m_ocrHandle ∧
    (loadLibrary.resolved env s).2.trace =
      s.trace ++ [.library_load (findLibraryFile env)] := by
  obtain ⟨h1, h2, h3, -⟩ := loop_fields env functions (loadLibrary.opened env s)
  exact ⟨h1, h2, h3⟩

theorem versioned_fields (env : Env) (s : OCRDynamicLoader) :
    (loadLibrary.versioned env s).m_library = some ⟨findLibraryFile env, true⟩ ∧
    (loadLibrary.versioned env s).m_ocrHandle = s.m_ocrHandle ∧
    (loadLibrary.versioned env s).trace =
      s.trace ++ [.library_load (findLibraryFile env)] ∧
    ((loadLibrary.resolved env s).1 = true → (loadLibrary.versioned env s).requiredResolved) := by
  obtain ⟨h1, h2, h3⟩ := resolved_fields env s
  obtain ⟨v1, v2, v3, -, v5, -⟩ := loadVersionFunctions_fields env (loadLibrary.resolved env s).2
  exact ⟨v1.trans h1, v2.trans h2, v3.trans h3, fun h =>
    requiredResolved_of_getSlot v5 (loadFunctions_true_requiredResolved env _ h)⟩

theorem checked_fields (env : Env) (s : OCRDynamicLoader) :
    (loadLibrary.checked env s).2.m_library = some ⟨findLibraryFile env, true⟩ ∧
    (loadLibrary.checked env s).2.m_ocrHandle = s.m_ocrHandle ∧
    ((loadLibrary.resolved env s).1 = true →
      (loadLibrary.checked env s).2.requiredResolved) := by
  obtain ⟨h1, h2, -, h4⟩ := versioned_fields env s
  obtain ⟨c1, c2, -, -, c5, -⟩ :=
    core_fields (core_isAPICompatible env (loadLibrary.versioned env s))
  exact ⟨c1.trans h1, c2.trans h2, fun h => c5.2 (h4 h)⟩

theorem wellFormed_loadLibrary (env : Env) {s : OCRDynamicLoader} (hs : s.wellFormed) :
    (s.loadLibrary env).2.wellFormed := by
  cases hld : s.isLoaded
  · obtain ⟨hl, hn, hh⟩ := hs.1 hld
    rw [loadLibrary_of_not_isLoaded env s hld]
    split_ifs with h1 h2 h3 h4
    · exact wellFormed_of_core rfl hs
    · exact wellFormed_unloaded rfl hn hh
    · exact wellFormed_unloaded (unloadLibrary_fields _).1 (unloadLibrary_fields _).2.1
        ((unloadLibrary_fields _).2.2.2.2 (Or.inl ((resolved_fields env s).2.1.trans hh)))
    · exact wellFormed_unloaded (unloadLibrary_fields _).1 (unloadLibrary_fields _).2.1
        ((unloadLibrary_fields _).2.2.2.2 (Or.inl ((checked_fields env s).2.1.trans hh)))
    · have hc : (loadLibrary.checked env s).2.wellFormed :=
        wellFormed_loaded (by simp [isLoaded, (checked_fields env s).1])
          ((checked_fields env s).2.2 (by simpa using h3))
      exact wellFormed_of_core (core_getAPIVersionInfo env _) hc
    · exact wellFormed_loaded (by simp [isLoaded, (checked_fields env s).1])
        ((checked_fields env s).2.2 (by simpa using h3))
  · rw [loadLibrary_of_isLoaded env s hld]
    exact hs

theorem table_fields {s t : OCRDynamicLoader}
    (h : ({ t with m_ocrHandle := 0 } : OCRDynamicLoader).core =
      ({ s with m_ocrHandle := 0 } : OCRDynamicLoader).core) :
    t.m_library = s.m_library ∧ t.isLoaded = s.isLoaded ∧ (t.allNull ↔ s.allNull) ∧
    (t.requiredResolved ↔ s.requiredResolved) := by
  obtain ⟨h1, -, h3, h4, h5, -⟩ := core_fields h
  exact ⟨h1, h3, h4, h5⟩

theorem table_createOCR (env : Env) (s : OCRDynamicLoader) :
    ({ (s.createOCR env).2 with m_ocrHandle := 0 } : OCRDynamicLoader).core =
      ({ s with m_ocrHandle := 0 } : OCRDynamicLoader).core := by
  unfold createOCR
  simp only [setError, record]
  repeat' split
  all_goals rfl

theorem table_destroyOCR (s : OCRDynamicLoader) :
    ({ s.destroyOCR with m_ocrHandle := 0 } : OCRDynamicLoader).core =
      ({ s with m_ocrHandle := 0 } : OCRDynamicLoader).core := by
  unfold destroyOCR
  simp only [record]
  repeat' split
  all_goals rfl

theorem createOCR_of_handle (env : Env) (s : OCRDynamicLoader) (h : s.m_ocrHandle ≠ 0) :
    s.createOCR env = (true, s) := by
  simp [createOCR, h]

theorem createOCR_true_handle (env : Env) (s : OCRDynamicLoader)
    (h : (s.createOCR env).1 = true) : (s.createOCR env).2.m_ocrHandle ≠ 0 := by
  unfold createOCR at h ⊢
  simp only [setError, record] at h ⊢
  split_ifs at h ⊢ with h1 h2 h3
  · exact h1
  · exact h3

theorem createOCR_handle_of_null_create (env : Env) (s : OCRDynamicLoader)
    (hc : s.m_ocr_create = 0) : (s.createOCR env).2.m_ocrHandle = s.m_ocrHandle := by
  unfold createOCR
  simp only [setError, record, hc, if_true]
  split_ifs <;> rfl

theorem destroyOCR_handle (s : OCRDynamicLoader) (h : s.m_ocrHandle = 0 ∨ s.m_ocr_destroy ≠ 0) :
    s.destroyOCR.m_ocrHandle = 0 := by
  unfold destroyOCR
  simp only [record]
  split_ifs with h1
  · rfl
  · rcases h with h | h
    · exact h
    · by_contra h0
      exact h1 ⟨h0, h⟩

theorem wellFormed_createOCR (env : Env) {s : OCRDynamicLoader} (hs : s.wellFormed) :
    (s.createOCR env).2.wellFormed := by
  obtain ⟨t1, t2, t3, t4⟩ := table_fields (table_createOCR env s)
  cases hld : s.isLoaded
  · obtain ⟨hl, hn, hh⟩ := hs.1 hld
    exact wellFormed_unloaded (t1.trans hl) (t3.2 hn)
      ((createOCR_handle_of_null_create env s hn.1).trans hh)
  · exact wellFormed_loaded (t2.trans hld) (t4.2 (hs.2 hld))

theorem wellFormed_destroyOCR {s : OCRDynamicLoader} (hs : s.wellFormed) :
    s.destroyOCR.wellFormed := by
  obtain ⟨t1, t2, t3, t4⟩ := table_fields (table_destroyOCR s)
  cases hld : s.isLoaded
  · obtain ⟨hl, hn, hh⟩ := hs.1 hld
    exact wellFormed_unloaded (t1.trans hl) (t3.2 hn) (destroyOCR_handle s (Or.inl hh))
  · exact wellFormed_loaded (t2.trans hld) (t4.2 (hs.2 hld))

theorem wellFormed_run (env : Env) (op : Op) {s : OCRDynamicLoader} (hs : s.wellFormed) :
    (op.run env s).wellFormed := by
  cases op with
  | loadLibrary => exact wellFormed_loadLibrary env hs
  | unloadLibrary => exact wellFormed_unloadLibrary hs
  | isAPICompatible => exact wellFormed_of_core (core_isAPICompatible env s) hs
  | getAPIVersionInfo => exact wellFormed_of_core (core_getAPIVersionInfo env s) hs
  | createOCR => exact wellFormed_createOCR env hs
  | destroyOCR => exact wellFormed_destroyOCR hs
  | loadDefaultPlugin => exact wellFormed_of_core (core_loadDefaultPlugin env s) hs
  | pluginReady => exact wellFormed_of_core (core_pluginReady env s) hs
  | setHardware type deviceId =>
    exact wellFormed_of_core (core_setHardware env type deviceId s) hs
  | setMaxThreads count => exact wellFormed_of_core (core_setMaxThreads env count s) hs
  | setLanguage language => exact wellFormed_of_core (core_setLanguage env language s) hs
  | setImageFile filePath => exact wellFormed_of_core (core_setImageFile env filePath s) hs
  | setImage image => exact wellFormed_of_core (core_setImage env image s) hs
  | analyze => exact wellFormed_of_core (core_analyze env s) hs
  | breakAnalyze => exact wellFormed_of_core (core_breakAnalyze env s) hs
  | isRunning => exact wellFormed_of_core (core_isRunning env s) hs
  | getSimpleResult => exact wellFormed_of_core (core_getSimpleResult env s) hs
  | getTextBoxes => exact wellFormed_of_core (core_getTextBoxes env s) hs
  | getVersion => exact wellFormed_of_core (core_getVersion env s) hs

theorem wellFormed_runOps (ops : List (Env × Op)) {s : OCRDynamicLoader}
    (hs : s.wellFormed) : (runOps ops s).wellFormed := by
  induction ops generalizing s with
  | nil => exact hs
  | cons p rest ih => exact ih (wellFormed_run p.1 p.2 hs)

theorem wellFormed_handle {s : OCRDynamicLoader} (hs : s.wellFormed)
    (hh : s.m_ocrHandle ≠ 0) : s.isLoaded = true ∧ s.requiredResolved := by
  cases hld : s.isLoaded
  · exact absurd (hs.1 hld).2.2 hh
  · exact ⟨rfl, hs.2 hld⟩

/-- Every public call other than `destroyOCR` and `unloadLibrary` keeps a handle
that is held. -/
theorem run_keeps_handle (env : Env) (op : Op) {s : OCRDynamicLoader} (hs : s.wellFormed)
    (hh : s.m_ocrHandle ≠ 0) (h1 : op ≠ .destroyOCR) (h2 : op ≠ .unloadLibrary) :
    (op.run env s).m_ocrHandle = s.m_ocrHandle := by
  cases op with
  | loadLibrary =>
    simp only [Op.run, loadLibrary_of_isLoaded env s (wellFormed_handle hs hh).1]
  | unloadLibrary => exact absurd rfl h2
  | isAPICompatible => exact (core_fields (core_isAPICompatible env s)).2.1
  | getAPIVersionInfo => exact (core_fields (core_getAPIVersionInfo env s)).2.1
  | createOCR => simp only [Op.run, createOCR_of_handle env s hh]
  | destroyOCR => exact absurd rfl h1
  | loadDefaultPlugin => exact (core_fields (core_loadDefaultPlugin env s)).2.1
  | pluginReady => exact (core_fields (core_pluginReady env s)).2.1
  | setHardware type deviceId =>
    exact (core_fields (core_setHardware env type deviceId s)).2.1
  | setMaxThreads count => exact (core_fields (core_setMaxThreads env count s)).2.1
  | setLanguage language => exact (core_fields (core_setLanguage env language s)).2.1
  | setImageFile filePath => exact (core_fields (core_setImageFile env filePath s)).2.1
  | setImage image => exact (core_fields (core_setImage env image s)).2.1
  | analyze => exact (core_fields (core_analyze env s)).2.1
  | breakAnalyze => exact (core_fields (core_breakAnalyze env s)).2.1
  | isRunning => exact (core_fields (core_isRunning env s)).2.1
  | getSimpleResult => exact (core_fields (core_getSimpleResult env s)).2.1
  | getTextBoxes => exact (core_fields (core_getTextBoxes env s)).2.1
  | getVersion => exact (core_fields (core_getVersion env s)).2.1

theorem loadLibrary_false_fields (env : Env) {s : OCRDynamicLoader}
    (hld : s.isLoaded = false) (hn : s.allNull)
    (hfail : (s.loadLibrary env).1 = false) :
    (s.loadLibrary env).2.isLoaded = false ∧ (s.loadLibrary env).2.allNull := by
  rw [loadLibrary_of_not_isLoaded env s hld] at hfail ⊢
  split_ifs at hfail ⊢ with h1 h2 h3 h4
  · exact ⟨hld, hn⟩
  · exact ⟨rfl, hn⟩
  · exact ⟨(unloadLibrary_fields _).2.2.2.1, (unloadLibrary_fields _).2.1⟩
  · exact ⟨(unloadLibrary_fields _).2.2.2.1, (unloadLibrary_fields _).2.1⟩

theorem createOCR_false_handle (env : Env) (s : OCRDynamicLoader)
    (h : (s.createOCR env).1 = false) : (s.createOCR env).2.m_ocrHandle = 0 := by
  unfold createOCR at h ⊢
  simp only [setError, record] at h ⊢
  split_ifs at h ⊢ with h1 h2 h3
  · simpa using h1
  · exact h3

theorem runOps_keeps_handle (mid : List (Env × Op)) {s : OCRDynamicLoader}
    (hs : s.wellFormed) (hh : s.m_ocrHandle ≠ 0)
    (hmid : ∀ p ∈ mid, p.2 ≠ Op.destroyOCR ∧ p.2 ≠ Op.unloadLibrary) :
    (runOps mid s).m_ocrHandle = s.m_ocrHandle := by
  induction mid generalizing s with
  | nil => rfl
  | cons p rest ih =>
    have hp := hmid p (List.mem_cons_self _ _)
    have hk := run_keeps_handle p.1 p.2 hs hh hp.1 hp.2
    have := ih (wellFormed_run p.1 p.2 hs) (by rw [hk]; exact hh)
      (fun q hq => hmid q (List.mem_cons_of_mem _ hq))
    exact this.trans hk

theorem pluginReady_without_handle (env : Env) {l : OCRDynamicLoader} (hh : l.m_ocrHandle = 0) :
    l.pluginReady env = (false, l) := by
  simp [OCRDynamicLoader.pluginReady, hh]

theorem isRunning_without_handle (env : Env) {l : OCRDynamicLoader} (hh : l.m_ocrHandle = 0) :
    l.isRunning env = (false, l) := by
  simp [OCRDynamicLoader.isRunning, hh]

theorem setLanguage_without_handle (env : Env) (language : String) {l : OCRDynamicLoader}
    (hh : l.m_ocrHandle = 0) :
    l.setLanguage env language = (false, l.setError "OCR实例未创建") := by
  simp [OCRDynamicLoader.setLanguage, hh]

theorem setImage_without_handle (env : Env) (image : QImage) {l : OCRDynamicLoader}
    (hh : l.m_ocrHandle = 0) :
    l.setImage env image = (false, l.setError "OCR实例未创建") := by
  simp [OCRDynamicLoader.setImage, hh]

theorem engine_call_without_handle (env : Env) (c : OCREngine.Call) {e : OCREngine}
    {l : OCRDynamicLoader} (he : e.ocrLoader = some l) (hh : l.m_ocrHandle = 0) :
    (∃ l', (c.run env e).ocrLoader = some l' ∧ l'.m_ocrHandle = 0 ∧ l'.trace = l.trace ∧
      l'.isLoaded = l.isLoaded) ∧
    (c.run env e).m_isRunning = e.m_isRunning ∧
    (l.isLoaded = false → c.run env e = e) := by
  obtain ⟨lo, r⟩ := e
  simp only at he
  subst he
  cases c with
  | setImage image =>
    simp only [OCREngine.Call.run, OCREngine.setImage, setImage_without_handle env _ hh]
    split_ifs with h1 h2
    · exact ⟨⟨_, rfl, hh, rfl, rfl⟩, rfl, fun _ => rfl⟩
    · exact ⟨⟨_, rfl, hh, rfl, rfl⟩, rfl, fun _ => rfl⟩
    · exact ⟨⟨_, rfl, hh, rfl, rfl⟩, rfl, fun h => absurd h (by simpa using h1)⟩
  | setLanguage language =>
    simp only [OCREngine.Call.run, OCREngine.setLanguage, isRunning_without_handle env hh,
      setLanguage_without_handle env _ hh, Bool.false_eq_true, if_false]
    split_ifs with h1 h2
    · exact ⟨⟨_, rfl, hh, rfl, rfl⟩, rfl, fun _ => rfl⟩
    · exact ⟨⟨_, rfl, hh, rfl, rfl⟩, rfl, fun _ => rfl⟩
    · exact ⟨⟨_, rfl, hh, rfl, rfl⟩, rfl, fun h => absurd h (by simpa using h1)⟩
  | getRecogitionResult =>
    simp only [OCREngine.Call.run, OCREngine.getRecogitionResult,
      pluginReady_without_handle env hh, Bool.not_false, if_true]
    split_ifs with h1
    · exact ⟨⟨_, rfl, hh, rfl, rfl⟩, rfl, fun _ => rfl⟩
    · exact ⟨⟨_, rfl, hh, rfl, rfl⟩, rfl, fun _ => rfl⟩

theorem engine_results_without_handle (env : Env) (language : String) {e : OCREngine}
    {l : OCRDynamicLoader} (he : e.ocrLoader = some l) (hh : l.m_ocrHandle = 0) :
    (e.setLanguage env language).1 = false ∧ (e.getRecogitionResult env).1 = "" := by
  obtain ⟨lo, r⟩ := e
  simp only at he
  subst he
  constructor
  · simp only [OCREngine.setLanguage, isRunning_without_handle env hh,
      setLanguage_without_handle env _ hh, Bool.false_eq_true, if_false]
    split_ifs <;> rfl
  · simp only [OCREngine.getRecogitionResult, pluginReady_without_handle env hh,
      Bool.not_false, if_true]
    split_ifs <;> rfl

theorem engine_calls_without_handle (calls : List (Env × OCREngine.Call)) {e : OCREngine}
    {l : OCRDynamicLoader} (he : e.ocrLoader = some l) (hh : l.m_ocrHandle = 0) :
    (∃ l', (OCREngine.runCalls calls e).ocrLoader = some l' ∧ l'.m_ocrHandle = 0 ∧
      l'.trace = l.trace ∧ l'.isLoaded = l.isLoaded) ∧
    (OCREngine.runCalls calls e).m_isRunning = e.m_isRunning ∧
    (l.isLoaded = false → OCREngine.runCalls calls e = e) := by
  induction calls generalizing e l with
  | nil => exact ⟨⟨l, he, hh, rfl, rfl⟩, rfl, fun _ => rfl⟩
  | cons p rest ih =>
    obtain ⟨⟨l1, h1, h2, h3, h4⟩, h5, h6⟩ := engine_call_without_handle p.1 p.2 he hh
    obtain ⟨⟨l2, i1, i2, i3, i4⟩, i5, i6⟩ := ih h1 h2
    refine ⟨⟨l2, i1, i2, i3.trans h3, i4.trans h4⟩, i5.trans h5, fun hld => ?_⟩
    show OCREngine.runCalls rest (p.2.run p.1 e) = e
    rw [i6 (h4.trans hld), h6 hld]

theorem autoSearch_none (env : Env) (names : List String)
    (hauto : ∀ n ∈ names, env.testLibLoad n = false) :
    findLibraryFile.autoSearch env names = none := by
  induction names with
  | nil => rfl
  | cons n rest ih =>
    simp only [findLibraryFile.autoSearch, hauto n (List.mem_cons_self _ _), Bool.false_eq_true,
      if_false]
    exact ih (fun m hm => hauto m (List.mem_cons_of_mem _ hm))

theorem searchDir_eq (env : Env) (path : String) (names : List String)
    (habs : ∀ n ∈ names, env.absoluteFilePath path n = path ++ "/" ++ n)
    (hdir : env.dirExists path = true) :
    findLibraryFile.searchDir env path names =
      ((names.map (fun name => (path, name))).find? (fun pair =>
        env.dirExists pair.1 && env.fileExists (pair.1 ++ "/" ++ pair.2) &&
          env.fileReadable (pair.1 ++ "/" ++ pair.2))).map
        (fun pair => pair.1 ++ "/" ++ pair.2) := by
  induction names with
  | nil => rfl
  | cons n rest ih =>
    have hrest := ih (fun m hm => habs m (List.mem_cons_of_mem _ hm))
    simp only [findLibraryFile.searchDir, habs n (List.mem_cons_self _ _), List.map_cons,
      List.find?_cons, hdir, Bool.true_and]
    cases hok : (env.fileExists (path ++ "/" ++ n) && env.fileReadable (path ++ "/" ++ n))
    · simp only [Bool.false_eq_true, if_false]
      simpa only [hdir, Bool.true_and] using hrest
    · simp only [if_true, Option.map_some']

theorem searchDir_missing_dir (env : Env) (path : String) (names : List String)
    (hdir : env.dirExists path = false) :
    (names.map (fun name => (path, name))).find? (fun pair =>
        env.dirExists pair.1 && env.fileExists (pair.1 ++ "/" ++ pair.2) &&
          env.fileReadable (pair.1 ++ "/" ++ pair.2)) = none := by
  induction names with
  | nil => rfl
  | cons n rest ih =>
    simp only [List.map_cons, List.find?_cons, hdir, Bool.false_and]
    exact ih

theorem manualSearch_eq (env : Env) (paths names : List String)
    (habs : ∀ p ∈ paths, ∀ n ∈ names, env.absoluteFilePath p n = p ++ "/" ++ n) :
    findLibraryFile.manualSearch env names paths =
      (firstReadablePair env paths names).map (fun pair => pair.1 ++ "/" ++ pair.2) := by
  induction paths with
  | nil => rfl
  | cons p rest ih =>
    have hrest := ih (fun q hq => habs q (List.mem_cons_of_mem _ hq))
    unfold firstReadablePair at hrest ⊢
    simp only [findLibraryFile.manualSearch, candidatePairs, List.find?_append]
    cases hdir : env.dirExists p
    · simp only [Bool.not_false, if_true, searchDir_missing_dir env p names hdir,
        Option.none_or]
      exact hrest
    · simp only [Bool.not_true, Bool.false_eq_true, if_false]
      rw [searchDir_eq env p names (habs p (List.mem_cons_self _ _)) hdir, hrest]
      cases (List.find? (fun pair =>
        env.dirExists pair.1 && env.fileExists (pair.1 ++ "/" ++ pair.2) &&
          env.fileReadable (pair.1 ++ "/" ++ pair.2)) (names.map (fun name => (p, name)))) <;>
        rfl

theorem join_ne_empty (p n : String) : p ++ "/" ++ n ≠ "" := by
  intro h
  have := congrArg String.length h
  simp only [String.length_append] at this
  have h1 : ("/" : String).length = 1 := rfl
  have h0 : ("" : String).length = 0 := rfl
  omega

theorem isRunning_true_fields (env : Env) (l : OCRDynamicLoader)
    (h : (l.isRunning env).1 = true) :
    l.m_ocrHandle ≠ 0 ∧ l.m_ocr_is_running ≠ 0 ∧
      (l.isRunning env).2 = l.record (.ocr_is_running l.m_ocrHandle) := by
  unfold OCRDynamicLoader.isRunning at h ⊢
  split_ifs at h ⊢ with h0
  simp only [not_or] at h0
  exact ⟨h0.1, h0.2, rfl⟩

theorem breakAnalyze_trace (env : Env) (l : OCRDynamicLoader) (hh : l.m_ocrHandle ≠ 0) :
    (l.breakAnalyze env).2.trace =
        l.trace ++ (if l.m_ocr_break_analyze = 0 then []
          else [Event.ocr_break_analyze l.m_ocrHandle]) ∧
      (l.breakAnalyze env).2.core = l.core := by
  refine ⟨?_, core_breakAnalyze env l⟩
  unfold OCRDynamicLoader.breakAnalyze
  simp only [hh, if_false, OCRDynamicLoader.record]
  split_ifs <;> simp

theorem setLanguage_trace (env : Env) (language : String) (l : OCRDynamicLoader)
    (hh : l.m_ocrHandle ≠ 0) :
    (l.setLanguage env language).2.trace =
        l.trace ++ (if l.m_ocr_set_language = 0 then []
          else [Event.ocr_set_language l.m_ocrHandle language]) := by
  unfold OCRDynamicLoader.setLanguage
  simp only [hh, if_false, OCRDynamicLoader.record, OCRDynamicLoader.setError]
  split_ifs <;> simp

theorem isAPICompatible_fst (env : Env) (s : OCRDynamicLoader) :
    (s.isAPICompatible env).1 =
      if s.m_ocr_get_api_version_major = 0 ∨ s.m_ocr_get_api_version_minor = 0 ∨
          s.m_ocr_get_api_version_patch = 0 then true
      else decide (lexGe
        (env.ocr_get_api_version_major s.trace,
         env.ocr_get_api_version_minor (s.trace ++ [.ocr_get_api_version_major]),
         env.ocr_get_api_version_patch
          (s.trace ++ [.ocr_get_api_version_major] ++ [.ocr_get_api_version_minor]))
        (MIN_API_VERSION_MAJOR, MIN_API_VERSION_MINOR, MIN_API_VERSION_PATCH)) := by
  unfold isAPICompatible
  split_ifs with h0
  · rfl
  · simp only [record, lexGe, MIN_API_VERSION_MAJOR, MIN_API_VERSION_MINOR,
      MIN_API_VERSION_PATCH]
    split_ifs
    all_goals dsimp only
    all_goals first
      | (symm; rw [decide_eq_true_iff]; omega)
      | (symm; rw [decide_eq_false_iff_not]; omega)
      | (rw [decide_eq_decide]; omega)

theorem versioned_pointers (env : Env) (s : OCRDynamicLoader) :
    (loadLibrary.versioned env s).m_ocr_get_api_version_major =
        env.resolve (findLibraryFile env) "ocr_get_api_version_major" ∧
      (loadLibrary.versioned env s).m_ocr_get_api_version_minor =
        env.resolve (findLibraryFile env) "ocr_get_api_version_minor" ∧
      (loadLibrary.versioned env s).m_ocr_get_api_version_patch =
        env.resolve (findLibraryFile env) "ocr_get_api_version_patch" := by
  obtain ⟨r1, -, -⟩ := resolved_fields env s
  have hres : ∀ n, resolve env (loadLibrary.resolved env s).2 n =
      env.resolve (findLibraryFile env) n := by
    intro n
    simp only [resolve, r1]
  obtain ⟨-, -, -, -, -, v6, v7, v8⟩ :=
    loadVersionFunctions_fields env (loadLibrary.resolved env s).2
  rw [hres] at v6 v7 v8
  exact ⟨v6, v7, v8⟩

theorem checked_eq_versionGate (env : Env) (s : OCRDynamicLoader) :
    (loadLibrary.checked env s).1 =
      versionGate env (findLibraryFile env)
        (s.trace ++ [.library_load (findLibraryFile env)]) := by
  obtain ⟨p1, p2, p3⟩ := versioned_pointers env s
  unfold loadLibrary.checked
  rw [isAPICompatible_fst, p1, p2, p3, (versioned_fields env s).2.2.1]
  rfl

theorem resolved_true_iff (env : Env) (s : OCRDynamicLoader) :
    (loadLibrary.resolved env s).1 = true ↔
      ∀ n ∈ requiredSymbols, env.resolve (findLibraryFile env) n ≠ 0 := by
  unfold loadLibrary.resolved loadFunctions
  rw [loop_true_iff]
  have hres : ∀ n, resolve env (loadLibrary.opened env s) n =
      env.resolve (findLibraryFile env) n := fun _ => rfl
  simp only [hres, functions, requiredSymbols, List.forall_mem_cons, List.not_mem_nil,
    false_implies, implies_true, and_true, Bool.false_eq_true, forall_const, true_and]

theorem loadLibrary_true_iff (env : Env) (s : OCRDynamicLoader) (hs : s.isLoaded = false)
    (hfound : findLibraryFile env ≠ "") (hload : env.load (findLibraryFile env) = true) :
    (s.loadLibrary env).1 = true ↔
      (∀ n ∈ requiredSymbols, env.resolve (findLibraryFile env) n ≠ 0) ∧
        versionGate env (findLibraryFile env)
          (s.trace ++ [.library_load (findLibraryFile env)]) = true := by
  rw [loadLibrary_of_not_isLoaded env s hs, ← resolved_true_iff env s,
    ← checked_eq_versionGate env s]
  simp only [hfound, hload, if_false, Bool.true_eq_false]
  cases h1 : (loadLibrary.resolved env s).1 <;> cases h2 : (loadLibrary.checked env s).1 <;>
    simp

theorem findLibraryFileIn_congr (env env' : Env) (paths names : List String)
    (h1 : env'.testLibLoad = env.testLibLoad) (h2 : env'.dirExists = env.dirExists)
    (h3 : env'.absoluteFilePath = env.absoluteFilePath)
    (h4 : env'.fileExists = env.fileExists) (h5 : env'.fileReadable = env.fileReadable) :
    findLibraryFileIn env' paths names = findLibraryFileIn env paths names := by
  have ha : ∀ ns, findLibraryFile.autoSearch env' ns = findLibraryFile.autoSearch env ns := by
    intro ns
    induction ns with
    | nil => rfl
    | cons n rest ih => simp only [findLibraryFile.autoSearch, h1, ih]
  have hd : ∀ p ns, findLibraryFile.searchDir env' p ns = findLibraryFile.searchDir env p ns := by
    intro p ns
    induction ns with
    | nil => rfl
    | cons n rest ih => simp only [findLibraryFile.searchDir, h3, h4, h5, ih]
  have hm : ∀ ps, findLibraryFile.manualSearch env' names ps =
      findLibraryFile.manualSearch env names ps := by
    intro ps
    induction ps with
    | nil => rfl
    | cons p rest ih => simp only [findLibraryFile.manualSearch, h2, hd, ih]
  simp only [findLibraryFileIn, ha, hm]

theorem new_m_isRunning (env : Env) : (OCREngine.new env).m_isRunning = false := by
  simp only [OCREngine.new, OCREngine.init]
  split_ifs <;> rfl

theorem call_m_isRunning (env : Env) (c : OCREngine.Call) (e : OCREngine)
    (h : e.m_isRunning = false) : (c.run env e).m_isRunning = false := by
  obtain ⟨lo, r⟩ := e
  simp only at h
  subst h
  cases lo with
  | none => cases c <;> rfl
  | some l =>
    cases c with
    | setImage image =>
      simp only [OCREngine.Call.run, OCREngine.setImage]
      split_ifs <;> rfl
    | setLanguage language =>
      simp only [OCREngine.Call.run, OCREngine.setLanguage]
      split_ifs <;> rfl
    | getRecogitionResult =>
      simp only [OCREngine.Call.run, OCREngine.getRecogitionResult]
      split_ifs <;> rfl

theorem runCalls_m_isRunning (calls : List (Env × OCREngine.Call)) (e : OCREngine)
    (h : e.m_isRunning = false) : (OCREngine.runCalls calls e).m_isRunning = false := by
  induction calls generalizing e with
  | nil => exact h
  | cons p rest ih => exact ih _ (call_m_isRunning p.1 p.2 e h)

theorem pluginReady_analyzeCalls (env : Env) (l : OCRDynamicLoader) :
    analyzeCalls (l.pluginReady env).2.trace = analyzeCalls l.trace := by
  unfold OCRDynamicLoader.pluginReady
  split_ifs
  · rfl
  · simp [analyzeCalls, OCRDynamicLoader.record, List.countP_append]

theorem lifecycle_snoc (t : List Event) (e : Event) (live : Ptr) :
    lifecycle (t ++ [e]) live = (lifecycle t live).bind (fun l => lifecycle.step l e) := by
  induction t generalizing live with
  | nil =>
    simp only [List.nil_append, lifecycle, Option.some_bind]
    cases lifecycle.step live e <;> rfl
  | cons a rest ih =>
    simp only [List.cons_append, lifecycle]
    cases lifecycle.step live a with
    | none => rfl
    | some next => exact ih next

theorem lifecycle_snoc_neutral (t : List Event) (e : Event) (live : Ptr)
    (h : e.isLifecycle = false) : lifecycle (t ++ [e]) live = lifecycle t live := by
  rw [lifecycle_snoc]
  have hs : ∀ l, lifecycle.step l e = some l := by
    intro l
    cases e <;> first | rfl | cases h
  simp only [hs]
  cases lifecycle t live <;> rfl

theorem lifecycle_append_neutral (t u : List Event) (live : Ptr)
    (h : ∀ e ∈ u, e.isLifecycle = false) : lifecycle (t ++ u) live = lifecycle t live := by
  induction u generalizing t with
  | nil => rw [List.append_nil]
  | cons a rest ih =>
    have := ih (t ++ [a]) (fun e he => h e (List.mem_cons_of_mem _ he))
    rw [List.append_assoc, List.singleton_append] at this
    rw [this, lifecycle_snoc_neutral _ _ _ (h a (List.mem_cons_self _ _))]

theorem disciplined_isAPICompatible (env : Env) {s : OCRDynamicLoader}
    (hs : s.disciplined) : (s.isAPICompatible env).2.disciplined := by
  refine ⟨wellFormed_of_core (core_isAPICompatible env s) hs.1, ?_⟩
  have hk := hs.2
  have hc := (core_fields (core_isAPICompatible env s)).2.1
  rw [hc]
  unfold OCRDynamicLoader.isAPICompatible
  simp only [setError, record]
  repeat' split
  all_goals simp only [List.append_assoc, List.singleton_append, List.cons_append,
    List.nil_append]
  all_goals first
    | exact hk
    | (rw [lifecycle_append_neutral _ _ _ (by simp [Event.isLifecycle])]; exact hk)

theorem disciplined_getAPIVersionInfo (env : Env) {s : OCRDynamicLoader}
    (hs : s.disciplined) : (s.getAPIVersionInfo env).2.disciplined := by
  refine ⟨wellFormed_of_core (core_getAPIVersionInfo env s) hs.1, ?_⟩
  have hk := hs.2
  have hc := (core_fields (core_getAPIVersionInfo env s)).2.1
  rw [hc]
  unfold OCRDynamicLoader.getAPIVersionInfo
  simp only [setError, record]
  repeat' split
  all_goals simp only [List.append_assoc, List.singleton_append, List.cons_append,
    List.nil_append]
  all_goals first
    | exact hk
    | (rw [lifecycle_append_neutral _ _ _ (by simp [Event.isLifecycle])]; exact hk)

theorem disciplined_loadDefaultPlugin (env : Env) {s : OCRDynamicLoader}
    (hs : s.disciplined) : (s.loadDefaultPlugin env).2.disciplined := by
  refine ⟨wellFormed_of_core (core_loadDefaultPlugin env s) hs.1, ?_⟩
  have hk := hs.2
  have hc := (core_fields (core_loadDefaultPlugin env s)).2.1
  rw [hc]
  unfold OCRDynamicLoader.loadDefaultPlugin
  simp only [setError, record]
  repeat' split
  all_goals simp only [List.append_assoc, List.singleton_append, List.cons_append,
    List.nil_append]
  all_goals first
    | exact hk
    | (rw [lifecycle_append_neutral _ _ _ (by simp [Event.isLifecycle])]; exact hk)

theorem disciplined_pluginReady (env : Env) {s : OCRDynamicLoader}
    (hs : s.disciplined) : (s.pluginReady env).2.disciplined := by
  refine ⟨wellFormed_of_core (core_pluginReady env s) hs.1, ?_⟩
  have hk := hs.2
  have hc := (core_fields (core_pluginReady env s)).2.1
  rw [hc]
  unfold OCRDynamicLoader.pluginReady
  simp only [setError, record]
  repeat' split
  all_goals simp only [List.append_assoc, List.singleton_append, List.cons_append,
    List.nil_append]
  all_goals first
    | exact hk
    | (rw [lifecycle_append_neutral _ _ _ (by simp [Event.isLifecycle])]; exact hk)

theorem disciplined_setHardware (env : Env) (type : HardwareType) (deviceId : Int) {s :
    OCRDynamicLoader}
    (hs : s.disciplined) : (s.setHardware env type deviceId).2.disciplined := by
  refine ⟨wellFormed_of_core (core_setHardware env type deviceId s) hs.1, ?_⟩
  have hk := hs.2
  have hc := (core_fields (core_setHardware env type deviceId s)).2.1
  rw [hc]
  unfold OCRDynamicLoader.setHardware
  simp only [setError, record]
  repeat' split
  all_goals simp only [List.append_assoc, List.singleton_append, List.cons_append,
    List.nil_append]
  all_goals first
    | exact hk
    | (rw [lifecycle_append_neutral _ _ _ (by simp [Event.isLifecycle])]; exact hk)

theorem disciplined_setMaxThreads (env : Env) (count : Int) {s : OCRDynamicLoader}
    (hs : s.disciplined) : (s.setMaxThreads env count).2.disciplined := by
  refine ⟨wellFormed_of_core (core_setMaxThreads env count s) hs.1, ?_⟩
  have hk := hs.2
  have hc := (core_fields (core_setMaxThreads env count s)).2.1
  rw [hc]
  unfold OCRDynamicLoader.setMaxThreads
  simp only [setError, record]
  repeat' split
  all_goals simp only [List.append_assoc, List.singleton_append, List.cons_append,
    List.nil_append]
  all_goals first
    | exact hk
    | (rw [lifecycle_append_neutral _ _ _ (by simp [Event.isLifecycle])]; exact hk)

theorem disciplined_setLanguage (env : Env) (language : String) {s : OCRDynamicLoader}
    (hs : s.disciplined) : (s.setLanguage env language).2.disciplined := by
  refine ⟨wellFormed_of_core (core_setLanguage env language s) hs.1, ?_⟩
  have hk := hs.2
  have hc := (core_fields (core_setLanguage env language s)).2.1
  rw [hc]
  unfold OCRDynamicLoader.setLanguage
  simp only [setError, record]
  repeat' split
  all_goals simp only [List.append_assoc, List.singleton_append, List.cons_append,
    List.nil_append]
  all_goals first
    | exact hk
    | (rw [lifecycle_append_neutral _ _ _ (by simp [Event.isLifecycle])]; exact hk)

theorem disciplined_setImageFile (env : Env) (filePath : String) {s : OCRDynamicLoader}
    (hs : s.disciplined) : (s.setImageFile env filePath).2.disciplined := by
  refine ⟨wellFormed_of_core (core_setImageFile env filePath s) hs.1, ?_⟩
  have hk := hs.2
  have hc := (core_fields (core_setImageFile env filePath s)).2.1
  rw [hc]
  unfold OCRDynamicLoader.setImageFile
  simp only [setError, record]
  repeat' split
  all_goals simp only [List.append_assoc, List.singleton_append, List.cons_append,
    List.nil_append]
  all_goals first
    | exact hk
    | (rw [lifecycle_append_neutral _ _ _ (by simp [Event.isLifecycle])]; exact hk)

theorem disciplined_setImage (env : Env) (image : QImage) {s : OCRDynamicLoader}
    (hs : s.disciplined) : (s.setImage env image).2.disciplined := by
  refine ⟨wellFormed_of_core (core_setImage env image s) hs.1, ?_⟩
  have hk := hs.2
  have hc := (core_fields (core_setImage env image s)).2.1
  rw [hc]
  unfold OCRDynamicLoader.setImage
  simp only [setError, record]
  repeat' split
  all_goals simp only [List.append_assoc, List.singleton_append, List.cons_append,
    List.nil_append]
  all_goals first
    | exact hk
    | (rw [lifecycle_append_neutral _ _ _ (by simp [Event.isLifecycle])]; exact hk)

theorem disciplined_analyze (env : Env) {s : OCRDynamicLoader}
    (hs : s.disciplined) : (s.analyze env).2.disciplined := by
  refine ⟨wellFormed_of_core (core_analyze env s) hs.1, ?_⟩
  have hk := hs.2
  have hc := (core_fields (core_analyze env s)).2.1
  rw [hc]
  unfold OCRDynamicLoader.analyze
  simp only [setError, record]
  repeat' split
  all_goals simp only [List.append_assoc, List.singleton_append, List.cons_append,
    List.nil_append]
  all_goals first
    | exact hk
    | (rw [lifecycle_append_neutral _ _ _ (by simp [Event.isLifecycle])]; exact hk)

theorem disciplined_breakAnalyze (env : Env) {s : OCRDynamicLoader}
    (hs : s.disciplined) : (s.breakAnalyze env).2.disciplined := by
  refine ⟨wellFormed_of_core (core_breakAnalyze env s) hs.1, ?_⟩
  have hk := hs.2
  have hc := (core_fields (core_breakAnalyze env s)).2.1
  rw [hc]
  unfold OCRDynamicLoader.breakAnalyze
  simp only [setError, record]
  repeat' split
  all_goals simp only [List.append_assoc, List.singleton_append, List.cons_append,
    List.nil_append]
  all_goals first
    | exact hk
    | (rw [lifecycle_append_neutral _ _ _ (by simp [Event.isLifecycle])]; exact hk)

theorem disciplined_isRunning (env : Env) {s : OCRDynamicLoader}
    (hs : s.disciplined) : (s.isRunning env).2.disciplined := by
  refine ⟨wellFormed_of_core (core_isRunning env s) hs.1, ?_⟩
  have hk := hs.2
  have hc := (core_fields (core_isRunning env s)).2.1
  rw [hc]
  unfold OCRDynamicLoader.isRunning
  simp only [setError, record]
  repeat' split
  all_goals simp only [List.append_assoc, List.singleton_append, List.cons_append,
    List.nil_append]
  all_goals first
    | exact hk
    | (rw [lifecycle_append_neutral _ _ _ (by simp [Event.isLifecycle])]; exact hk)

theorem disciplined_getSimpleResult (env : Env) {s : OCRDynamicLoader}
    (hs : s.disciplined) : (s.getSimpleResult env).2.disciplined := by
  refine ⟨wellFormed_of_core (core_getSimpleResult env s) hs.1, ?_⟩
  have hk := hs.2
  have hc := (core_fields (core_getSimpleResult env s)).2.1
  rw [hc]
  unfold OCRDynamicLoader.getSimpleResult
  simp only [setError, record]
  repeat' split
  all_goals simp only [List.append_assoc, List.singleton_append, List.cons_append,
    List.nil_append]
  all_goals first
    | exact hk
    | (rw [lifecycle_append_neutral _ _ _ (by simp [Event.isLifecycle])]; exact hk)

theorem disciplined_getTextBoxes (env : Env) {s : OCRDynamicLoader}
    (hs : s.disciplined) : (s.getTextBoxes env).2.disciplined := by
  refine ⟨wellFormed_of_core (core_getTextBoxes env s) hs.1, ?_⟩
  have hk := hs.2
  have hc := (core_fields (core_getTextBoxes env s)).2.1
  rw [hc]
  unfold OCRDynamicLoader.getTextBoxes
  simp only [setError, record]
  repeat' split
  all_goals simp only [List.append_assoc, List.singleton_append, List.cons_append,
    List.nil_append]
  all_goals first
    | exact hk
    | (rw [lifecycle_append_neutral _ _ _ (by simp [Event.isLifecycle])]; exact hk)

theorem disciplined_getVersion (env : Env) {s : OCRDynamicLoader}
    (hs : s.disciplined) : (s.getVersion env).2.disciplined := by
  refine ⟨wellFormed_of_core (core_getVersion env s) hs.1, ?_⟩
  have hk := hs.2
  have hc := (core_fields (core_getVersion env s)).2.1
  rw [hc]
  unfold OCRDynamicLoader.getVersion
  simp only [setError, record]
  repeat' split
  all_goals simp only [List.append_assoc, List.singleton_append, List.cons_append,
    List.nil_append]
  all_goals first
    | exact hk
    | (rw [lifecycle_append_neutral _ _ _ (by simp [Event.isLifecycle])]; exact hk)

theorem disciplined_new : OCRDynamicLoader.new.disciplined :=
  ⟨wellFormed_new, rfl⟩

theorem disciplined_createOCR (env : Env) {s : OCRDynamicLoader} (hs : s.disciplined) :
    (s.createOCR env).2.disciplined := by
  refine ⟨wellFormed_createOCR env hs.1, ?_⟩
  have hk := hs.2
  unfold OCRDynamicLoader.createOCR
  simp only [setError, record]
  split_ifs with h1 h2 h3
  · exact hk
  · exact hk
  · simp only [lifecycle_snoc, hk, Option.some_bind, lifecycle.step]
    rw [if_pos (not_not.1 h1)]
  · simp only [lifecycle_snoc, hk, Option.some_bind, lifecycle.step]
    rw [if_pos (not_not.1 h1)]

theorem disciplined_destroyOCR {s : OCRDynamicLoader} (hs : s.disciplined) :
    s.destroyOCR.disciplined := by
  refine ⟨wellFormed_destroyOCR hs.1, ?_⟩
  have hk := hs.2
  unfold OCRDynamicLoader.destroyOCR
  simp only [record]
  split_ifs with h1
  · simp only [lifecycle_snoc, hk, Option.some_bind, lifecycle.step]
    rw [if_pos ⟨h1.1, trivial⟩]
  · exact hk

theorem lifecycle_unloadLibrary {s : OCRDynamicLoader}
    (hk : lifecycle s.trace 0 = some s.m_ocrHandle)
    (hd : s.m_ocrHandle = 0 ∨ s.m_ocr_destroy ≠ 0) :
    lifecycle s.unloadLibrary.trace 0 = some 0 := by
  have key : ∀ t : OCRDynamicLoader, lifecycle t.trace 0 = some 0 →
      lifecycle (match t.m_library with
        | some lib => if lib.isLoaded then t.record (.library_unload lib.fileName) else t
        | none => t).trace 0 = some 0 := by
    intro t ht
    split
    · split_ifs
      · simp only [record, lifecycle_snoc, ht, Option.some_bind, lifecycle.step, if_true]
      · exact ht
    · exact ht
  by_cases h0 : s.m_ocrHandle = 0
  · have := key s (by rw [hk, h0])
    simpa only [unloadLibrary, h0, ne_eq, not_true_eq_false, if_false] using this
  · have hdes : s.m_ocr_destroy ≠ 0 := hd.resolve_left h0
    have hds : lifecycle s.destroyOCR.trace 0 = some 0 := by
      simp only [destroyOCR, ne_eq, h0, not_false_eq_true, hdes, and_self, if_true, record,
        lifecycle_snoc, hk, Option.some_bind, lifecycle.step]
    have := key s.destroyOCR hds
    simpa only [unloadLibrary, ne_eq, h0, not_false_eq_true, if_true] using this

theorem disciplined_unloadLibrary {s : OCRDynamicLoader} (hs : s.disciplined) :
    s.unloadLibrary.disciplined ∧ s.unloadLibrary.m_ocrHandle = 0 := by
  have hd : s.m_ocrHandle = 0 ∨ s.m_ocr_destroy ≠ 0 := by
    cases hld : s.isLoaded
    · exact Or.inl (hs.1.1 hld).2.2
    · exact Or.inr (hs.1.2 hld).2.1
  have h0 := (unloadLibrary_fields s).2.2.2.2 hd
  exact ⟨⟨wellFormed_unloadLibrary hs.1, by rw [h0]; exact lifecycle_unloadLibrary hs.2 hd⟩, h0⟩

theorem disciplined_setError {s : OCRDynamicLoader} (error : String) (hs : s.disciplined) :
    (s.setError error).disciplined :=
  ⟨wellFormed_of_core rfl hs.1, hs.2⟩

theorem disciplined_loadLibrary (env : Env) {s : OCRDynamicLoader} (hs : s.disciplined) :
    (s.loadLibrary env).2.disciplined := by
  refine ⟨wellFormed_loadLibrary env hs.1, ?_⟩
  cases hld : s.isLoaded
  · obtain ⟨hl, hn, hh⟩ := hs.1.1 hld
    have hk : lifecycle (s.trace ++ [Event.library_load (findLibraryFile env)]) 0 = some 0 := by
      rw [lifecycle_snoc_neutral _ _ _ (by rfl), hs.2, hh]
    have hres : lifecycle (loadLibrary.resolved env s).2.trace 0 =
        some (loadLibrary.resolved env s).2.m_ocrHandle := by
      rw [(resolved_fields env s).2.2, (resolved_fields env s).2.1, hh]
      exact hk
    have hchk : (loadLibrary.resolved env s).1 = true →
        (loadLibrary.checked env s).2.disciplined := by
      intro hr
      have hv : (loadLibrary.versioned env s).disciplined := by
        refine ⟨wellFormed_loaded (by simp [isLoaded, (versioned_fields env s).1])
          ((versioned_fields env s).2.2.2 hr), ?_⟩
        rw [(versioned_fields env s).2.2.1, (versioned_fields env s).2.1, hh]
        exact hk
      exact disciplined_isAPICompatible env hv
    rw [loadLibrary_of_not_isLoaded env s hld]
    split_ifs with h1 h2 h3 h4 h5
    · exact hs.2
    · exact hs.2
    · have h0 : (loadLibrary.resolved env s).2.m_ocrHandle = 0 :=
        (resolved_fields env s).2.1.trans hh
      rw [(unloadLibrary_fields _).2.2.2.2 (Or.inl h0)]
      exact lifecycle_unloadLibrary hres (Or.inl h0)
    · exact (disciplined_unloadLibrary
        (disciplined_setError _ (hchk (by simpa using h3)))).1.2
    · exact (disciplined_getAPIVersionInfo env (hchk (by simpa using h3))).2
    · exact (hchk (by simpa using h3)).2
  · rw [loadLibrary_of_isLoaded env s hld]
    exact hs.2

theorem disciplined_run (env : Env) (op : Op) {s : OCRDynamicLoader} (hs : s.disciplined) :
    (op.run env s).disciplined := by
  cases op with
  | loadLibrary => exact disciplined_loadLibrary env hs
  | unloadLibrary => exact (disciplined_unloadLibrary hs).1
  | isAPICompatible => exact disciplined_isAPICompatible env hs
  | getAPIVersionInfo => exact disciplined_getAPIVersionInfo env hs
  | createOCR => exact disciplined_createOCR env hs
  | destroyOCR => exact disciplined_destroyOCR hs
  | loadDefaultPlugin => exact disciplined_loadDefaultPlugin env hs
  | pluginReady => exact disciplined_pluginReady env hs
  | setHardware type deviceId => exact disciplined_setHardware env type deviceId hs
  | setMaxThreads count => exact disciplined_setMaxThreads env count hs
  | setLanguage language => exact disciplined_setLanguage env language hs
  | setImageFile filePath => exact disciplined_setImageFile env filePath hs
  | setImage image => exact disciplined_setImage env image hs
  | analyze => exact disciplined_analyze env hs
  | breakAnalyze => exact disciplined_breakAnalyze env hs
  | isRunning => exact disciplined_isRunning env hs
  | getSimpleResult => exact disciplined_getSimpleResult env hs
  | getTextBoxes => exact disciplined_getTextBoxes env hs
  | getVersion => exact disciplined_getVersion env hs

theorem disciplined_runOps (ops : List (Env × Op)) {s : OCRDynamicLoader}
    (hs : s.disciplined) : (runOps ops s).disciplined := by
  induction ops generalizing s with
  | nil => exact hs
  | cons p rest ih => exact ih (disciplined_run p.1 p.2 hs)

theorem disciplined_engine_new (env : Env) :
    ∃ l, (OCREngine.new env).ocrLoader = some l ∧ l.disciplined := by
  have h0 := disciplined_loadLibrary env disciplined_new
  have h1 := disciplined_getVersion env h0
  have c0 := disciplined_createOCR env h0
  have c1 := disciplined_createOCR env h1
  have p0 := disciplined_loadDefaultPlugin env c0
  have p1 := disciplined_loadDefaultPlugin env c1
  have m0 := disciplined_setMaxThreads env 2 (disciplined_pluginReady env p0)
  have m1 := disciplined_setMaxThreads env 2 (disciplined_pluginReady env p1)
  have g0 := disciplined_setHardware env .HARDWARE_GPU_VULKAN 0 m0
  have g1 := disciplined_setHardware env .HARDWARE_GPU_VULKAN 0 m1
  cases a1 : (OCRDynamicLoader.new.loadLibrary env).1
  · refine ⟨(OCRDynamicLoader.new.loadLibrary env).2, ?_, h0⟩
    simp only [OCREngine.new, OCREngine.init, a1, Bool.not_false, if_true]
  · cases a2 : env.dmOcrInfoEnabled
    · cases a3 : ((OCRDynamicLoader.new.loadLibrary env).2.createOCR env).1
      · refine ⟨_, ?_, c0⟩
        simp only [OCREngine.new, OCREngine.init, a1, a2, a3, Bool.not_false, Bool.not_true,
          Bool.false_eq_true, if_true, if_false]
      · cases a4 : (((OCRDynamicLoader.new.loadLibrary env).2.createOCR env).2.loadDefaultPlugin
            env).1
        · refine ⟨_, ?_, p0⟩
          simp only [OCREngine.new, OCREngine.init, a1, a2, a3, a4, Bool.not_false,
            Bool.not_true, Bool.false_eq_true, if_true, if_false]
        · cases a5 : env.fileExists "/dev/mtgpu.0"
          · refine ⟨_, ?_, m0⟩
            simp only [OCREngine.new, OCREngine.init, a1, a2, a3, a4, a5, Bool.not_false,
              Bool.not_true, Bool.false_eq_true, if_true, if_false]
          · refine ⟨_, ?_, g0⟩
            simp only [OCREngine.new, OCREngine.init, a1, a2, a3, a4, a5, Bool.not_false,
              Bool.not_true, Bool.false_eq_true, if_true, if_false]
    · cases a3 : (((OCRDynamicLoader.new.loadLibrary env).2.getVersion env).2.createOCR env).1
      · refine ⟨_, ?_, c1⟩
        simp only [OCREngine.new, OCREngine.init, a1, a2, a3, Bool.not_false, Bool.not_true,
          Bool.false_eq_true, if_true, if_false]
      · cases a4 : ((((OCRDynamicLoader.new.loadLibrary env).2.getVersion env).2.createOCR
            env).2.loadDefaultPlugin env).1
        · refine ⟨_, ?_, p1⟩
          simp only [OCREngine.new, OCREngine.init, a1, a2, a3, a4, Bool.not_false,
            Bool.not_true, Bool.false_eq_true, if_true, if_false]
        · cases a5 : env.fileExists "/dev/mtgpu.0"
          · refine ⟨_, ?_, m1⟩
            simp only [OCREngine.new, OCREngine.init, a1, a2, a3, a4, a5, Bool.not_false,
              Bool.not_true, Bool.false_eq_true, if_true, if_false]
          · refine ⟨_, ?_, g1⟩
            simp only [OCREngine.new, OCREngine.init, a1, a2, a3, a4, a5, Bool.not_false,
              Bool.not_true, Bool.false_eq_true, if_true, if_false]

theorem disciplined_engine_call (env : Env) (c : OCREngine.Call) {e : OCREngine}
    (he : ∃ l, e.ocrLoader = some l ∧ l.disciplined) :
    ∃ l, (c.run env e).ocrLoader = some l ∧ l.disciplined := by
  obtain ⟨l, hl, hd⟩ := he
  obtain ⟨lo, r⟩ := e
  simp only at hl
  subst hl
  cases c with
  | setImage image =>
    simp only [OCREngine.Call.run, OCREngine.setImage]
    split_ifs
    · exact ⟨l, rfl, hd⟩
    · exact ⟨l, rfl, hd⟩
    · exact ⟨_, rfl, disciplined_setImage env _ hd⟩
  | setLanguage language =>
    simp only [OCREngine.Call.run, OCREngine.setLanguage]
    split_ifs
    · exact ⟨l, rfl, hd⟩
    · exact ⟨l, rfl, hd⟩
    · exact ⟨_, rfl, disciplined_setLanguage env _
        (disciplined_breakAnalyze env (disciplined_isRunning env hd))⟩
    · exact ⟨_, rfl, disciplined_setLanguage env _ (disciplined_isRunning env hd)⟩
  | getRecogitionResult =>
    simp only [OCREngine.Call.run, OCREngine.getRecogitionResult]
    split_ifs
    · exact ⟨l, rfl, hd⟩
    · exact ⟨_, rfl, disciplined_pluginReady env hd⟩
    · exact ⟨_, rfl, disciplined_analyze env (disciplined_pluginReady env hd)⟩
    · exact ⟨_, rfl, disciplined_getSimpleResult env
        (disciplined_analyze env (disciplined_pluginReady env hd))⟩

theorem disciplined_engine_runCalls (calls : List (Env × OCREngine.Call)) {e : OCREngine}
    (he : ∃ l, e.ocrLoader = some l ∧ l.disciplined) :
    ∃ l, (OCREngine.runCalls calls e).ocrLoader = some l ∧ l.disciplined := by
  induction calls generalizing e with
  | nil => exact he
  | cons p rest ih => exact ih (disciplined_engine_call p.1 p.2 he)

end Helpers


/-- C1. With the three version queries resolved, `isAPICompatible` answers true
exactly when the triple the library reports is lexicographically at least the
pinned minimum (1, 0, 0), whatever integers the library reports: (1,0,0) is
compatible, (0,9,9) is not, and major 2 is compatible with any minor and patch. -/
theorem C1_isAPICompatible_iff_lexGe (env : Env) (s : OCRDynamicLoader) (a b c : Int)
    (hmajor : s.m_ocr_get_api_version_major ≠ 0)
    (hminor : s.m_ocr_get_api_version_minor ≠ 0)
    (hpatch : s.m_ocr_get_api_version_patch ≠ 0)
    (ha : env.ocr_get_api_version_major s.trace = a)
    (hb : env.ocr_get_api_version_minor (s.trace ++ [.ocr_get_api_version_major]) = b)
    (hc : env.ocr_get_api_version_patch
      (s.trace ++ [.ocr_get_api_version_major] ++ [.ocr_get_api_version_minor]) = c) :
    ((s.isAPICompatible env).1 = true ↔
        lexGe (a, b, c)
          (MIN_API_VERSION_MAJOR, MIN_API_VERSION_MINOR, MIN_API_VERSION_PATCH)) ∧
      (MIN_API_VERSION_MAJOR, MIN_API_VERSION_MINOR, MIN_API_VERSION_PATCH) = (1, 0, 0) ∧
      ((a, b, c) = (1, 0, 0) → (s.isAPICompatible env).1 = true) ∧
      ((a, b, c) = (0, 9, 9) → (s.isAPICompatible env).1 = false) ∧
      (a = 2 → (s.isAPICompatible env).1 = true) := by
  have key : (s.isAPICompatible env).1 = true ↔
      lexGe (a, b, c)
        (MIN_API_VERSION_MAJOR, MIN_API_VERSION_MINOR, MIN_API_VERSION_PATCH) := by
    simp only [OCRDynamicLoader.isAPICompatible, OCRDynamicLoader.record, hmajor, hminor,
      hpatch, or_self, if_false, ha, hb, hc, lexGe, MIN_API_VERSION_MAJOR,
      MIN_API_VERSION_MINOR, MIN_API_VERSION_PATCH]
    split_ifs <;> simp <;> omega
  refine ⟨key, rfl, ?_, ?_, ?_⟩
  · intro h
    simp only [Prod.mk.injEq] at h
    obtain ⟨rfl, rfl, rfl⟩ := h
    exact key.2 (by decide)
  · intro h
    simp only [Prod.mk.injEq] at h
    obtain ⟨rfl, rfl, rfl⟩ := h
    have : ¬ lexGe ((0 : Int), (9 : Int), (9 : Int))
        (MIN_API_VERSION_MAJOR, MIN_API_VERSION_MINOR, MIN_API_VERSION_PATCH) := by decide
    cases hres : (s.isAPICompatible env).1
    · rfl
    · exact absurd (key.1 hres) this
  · intro h
    subst h
    exact key.2 (Or.inl (show (2 : Int) > MIN_API_VERSION_MAJOR by decide))

/-- C1, at a loader whose library reports version 1.0.0. -/
theorem C1_isAPICompatible_iff_lexGe_witness :
    ((sampleLoader.isAPICompatible sampleEnv).1 = true ↔
        lexGe (1, 0, 0)
          (MIN_API_VERSION_MAJOR, MIN_API_VERSION_MINOR, MIN_API_VERSION_PATCH)) ∧
      (MIN_API_VERSION_MAJOR, MIN_API_VERSION_MINOR, MIN_API_VERSION_PATCH) = (1, 0, 0) ∧
      (((1 : Int), (0 : Int), (0 : Int)) = (1, 0, 0) →
        (sampleLoader.isAPICompatible sampleEnv).1 = true) ∧
      (((1 : Int), (0 : Int), (0 : Int)) = (0, 9, 9) →
        (sampleLoader.isAPICompatible sampleEnv).1 = false) ∧
      ((1 : Int) = 2 → (sampleLoader.isAPICompatible sampleEnv).1 = true) :=
  C1_isAPICompatible_iff_lexGe sampleEnv sampleLoader 1 0 0 (by decide) (by decide)
    (by decide) rfl rfl rfl

/-- C2. At a loader holding a handle with `ocr_break_analyze` resolved, a native
call that returns 1 (success under the table's convention) makes `breakAnalyze`
return false: the code returns `result == 0`. -/
theorem C2_breakAnalyze_false_on_native_success :
    sampleLoader.m_ocrHandle ≠ 0 ∧ sampleLoader.m_ocr_break_analyze ≠ 0 ∧
      sampleEnv.ocr_break_analyze sampleLoader.trace sampleLoader.m_ocrHandle = 1 ∧
      (sampleLoader.breakAnalyze sampleEnv).1 = false ∧
      (sampleLoader.breakAnalyze sampleEnv).2.trace =
        sampleLoader.trace ++ [.ocr_break_analyze sampleLoader.m_ocrHandle] := by
  decide

/-- C3. For a library that loads but lacks the required symbol `ocr_create`, and
for one that reports API version 0.9.9, `loadLibrary` on a new loader returns
false and `getLastError` is empty afterwards: `loadFunctions` did record its
message (and the version check did fail), but the `unloadLibrary` that follows
clears the last error. -/
theorem C3_loadLibrary_failure_clears_last_error :
    (OCRDynamicLoader.new.loadLibrary envMissingCreate).1 = false ∧
      (OCRDynamicLoader.loadLibrary.resolved envMissingCreate
        OCRDynamicLoader.new).2.getLastError = "加载必需函数失败: ocr_create" ∧
      (OCRDynamicLoader.new.loadLibrary envMissingCreate).2.getLastError = "" ∧
      (OCRDynamicLoader.new.loadLibrary envOldVersion).1 = false ∧
      (OCRDynamicLoader.loadLibrary.resolved envOldVersion OCRDynamicLoader.new).1 = true ∧
      (OCRDynamicLoader.loadLibrary.checked envOldVersion OCRDynamicLoader.new).1 = false ∧
      (OCRDynamicLoader.new.loadLibrary envOldVersion).2.getLastError = "" := by
  decide

/-- C4. For a loader just constructed or just unloaded, a `loadLibrary` that
returns false leaves `isLoaded` false and all 19 function pointers null. -/
theorem C4_failed_loadLibrary_rolls_back (env : Env) (s : OCRDynamicLoader)
    (hs : s = OCRDynamicLoader.new ∨ ∃ s0 : OCRDynamicLoader, s = s0.unloadLibrary)
    (hfail : (s.loadLibrary env).1 = false) :
    (s.loadLibrary env).2.isLoaded = false ∧ (s.loadLibrary env).2.allNull := by
  have h0 : s.isLoaded = false ∧ s.allNull := by
    rcases hs with rfl | ⟨s0, rfl⟩
    · exact ⟨rfl, by decide⟩
    · exact ⟨(unloadLibrary_fields s0).2.2.2.1, (unloadLibrary_fields s0).2.1⟩
  exact loadLibrary_false_fields env h0.1 h0.2 hfail

/-- C4, at a new loader and a library that lacks `ocr_create`. -/
theorem C4_failed_loadLibrary_rolls_back_witness :
    (OCRDynamicLoader.new.loadLibrary envMissingCreate).2.isLoaded = false ∧
      (OCRDynamicLoader.new.loadLibrary envMissingCreate).2.allNull :=
  C4_failed_loadLibrary_rolls_back envMissingCreate OCRDynamicLoader.new (Or.inl rfl)
    (by decide)

/-- C5 fails as stated. When `loadDefaultPlugin` fails in the constructor the library
stays loaded and the handle stays held: `setImage` then calls the native
`ocr_set_image_data`, `setLanguage` calls native entries and returns true, and
`getRecogitionResult` returns the recognised text.  And when `createOCR` fails,
`setImage` still changes the engine: it overwrites the loader's last error. -/
theorem C5_counterexample_plugin_failure_leaves_engine_live :
    (OCREngine.init envPluginFails).1 = InitExit.loadDefaultPluginFailed ∧
      ((OCREngine.new envPluginFails).setImage envPluginFails sampleImage).trace =
        (OCREngine.new envPluginFails).trace ++ [.ocr_set_image_data 7 [0, 0, 0] 1 1 3] ∧
      ((OCREngine.new envPluginFails).setLanguage envPluginFails "eng").1 = true ∧
      ((OCREngine.new envPluginFails).setLanguage envPluginFails "eng").2.trace =
        (OCREngine.new envPluginFails).trace ++
          [.ocr_is_running 7, .ocr_set_language 7 "eng"] ∧
      ((OCREngine.new envPluginFails).getRecogitionResult envPluginFails).1 = "text" ∧
      (OCREngine.init envCreateFails).1 = InitExit.createOCRFailed ∧
      (OCREngine.new envCreateFails).setImage envCreateFails sampleImage ≠
        OCREngine.new envCreateFails := by
  decide

/-- C5, amended. When the constructor leaves at the failure of `loadLibrary` or of
`createOCR`, then after any sequence of `setImage`, `setLanguage` and
`getRecogitionResult` calls a further call records no event (so calls no native
entry) and leaves the running flag false, `setLanguage` returns false and
`getRecogitionResult` returns the empty string; and unless the failure was that of
`createOCR`, the call leaves the engine exactly as it was. -/
theorem C5_amended_disabled_after_load_or_create_failure (env : Env)
    (calls : List (Env × OCREngine.Call)) (env' : Env) (c : OCREngine.Call)
    (language : String)
    (hfail : (OCREngine.init env).1 = InitExit.loadLibraryFailed ∨
      (OCREngine.init env).1 = InitExit.createOCRFailed) :
    (c.run env' (OCREngine.runCalls calls (OCREngine.new env))).trace =
        (OCREngine.runCalls calls (OCREngine.new env)).trace ∧
      (OCREngine.runCalls calls (OCREngine.new env)).trace = (OCREngine.new env).trace ∧
      (c.run env' (OCREngine.runCalls calls (OCREngine.new env))).isRunning = false ∧
      ((OCREngine.runCalls calls (OCREngine.new env)).setLanguage env' language).1 = false ∧
      ((OCREngine.runCalls calls (OCREngine.new env)).getRecogitionResult env').1 = "" ∧
      ((OCREngine.init env).1 = InitExit.createOCRFailed ∨
        c.run env' (OCREngine.runCalls calls (OCREngine.new env)) =
          OCREngine.runCalls calls (OCREngine.new env)) := by
  -- the engine the constructor leaves holds a loader without a handle
  have hinit : ∃ l, (OCREngine.new env).ocrLoader = some l ∧ l.m_ocrHandle = 0 ∧
      (OCREngine.new env).m_isRunning = false ∧
      ((OCREngine.init env).1 = InitExit.loadLibraryFailed → l.isLoaded = false) := by
    unfold OCREngine.new
    by_cases h1 : (OCRDynamicLoader.new.loadLibrary env).1 = false
    · have hi : OCREngine.init env =
          (InitExit.loadLibraryFailed, ⟨some (OCRDynamicLoader.new.loadLibrary env).2, false⟩) := by
        simp [OCREngine.init, h1]
      have hf := loadLibrary_false_fields env (s := OCRDynamicLoader.new) rfl (by decide) h1
      have hw := wellFormed_loadLibrary env wellFormed_new
      rw [hi]
      exact ⟨_, rfl, (hw.1 hf.1).2.2, rfl, fun _ => hf.1⟩
    · by_cases h2 : (OCRDynamicLoader.createOCR env
          (if env.dmOcrInfoEnabled = true then
            (OCRDynamicLoader.getVersion env (OCRDynamicLoader.new.loadLibrary env).2).2
          else (OCRDynamicLoader.new.loadLibrary env).2)).1 = false
      · have hi : OCREngine.init env =
            (InitExit.createOCRFailed, ⟨some (OCRDynamicLoader.createOCR env
              (if env.dmOcrInfoEnabled = true then
                (OCRDynamicLoader.getVersion env (OCRDynamicLoader.new.loadLibrary env).2).2
              else (OCRDynamicLoader.new.loadLibrary env).2)).2, false⟩) := by
          simp [OCREngine.init, h1, h2]
        rw [hi]
        exact ⟨_, rfl, createOCR_false_handle env _ h2, rfl, fun h => by cases h⟩
      · exfalso
        have hi : (OCREngine.init env).1 = InitExit.loadDefaultPluginFailed ∨
            (OCREngine.init env).1 = InitExit.completed := by
          have h1' : (OCRDynamicLoader.new.loadLibrary env).1 = true := by simpa using h1
          have h2' : (OCRDynamicLoader.createOCR env
              (if env.dmOcrInfoEnabled = true then
                (OCRDynamicLoader.getVersion env (OCRDynamicLoader.new.loadLibrary env).2).2
              else (OCRDynamicLoader.new.loadLibrary env).2)).1 = true := by simpa using h2
          simp only [OCREngine.init, h1', h2', Bool.not_true, Bool.false_eq_true, if_false]
          by_cases h3 : (OCRDynamicLoader.loadDefaultPlugin env (OCRDynamicLoader.createOCR env
              (if env.dmOcrInfoEnabled = true then
                (OCRDynamicLoader.getVersion env (OCRDynamicLoader.new.loadLibrary env).2).2
              else (OCRDynamicLoader.new.loadLibrary env).2)).2).1 = true
          · simp [h3]
          · simp [h3]
        rcases hi with hi | hi <;> rw [hi] at hfail <;> rcases hfail with h | h <;> cases h
  obtain ⟨l, hl, hh, hr, hld⟩ := hinit
  obtain ⟨⟨l1, a1, a2, a3, a4⟩, a5, a6⟩ := engine_calls_without_handle calls hl hh
  obtain ⟨⟨l2, b1, b2, b3, b4⟩, b5, b6⟩ := engine_call_without_handle env' c a1 a2
  obtain ⟨r1, r2⟩ := engine_results_without_handle env' language a1 a2
  refine ⟨?_, ?_, ?_, r1, r2, hfail.symm.imp_right (fun h => b6 (a4.trans (hld h)))⟩
  · simp only [OCREngine.trace, b1, a1, b3]
  · simp only [OCREngine.trace, a1, hl, a3]
  · simp only [OCREngine.isRunning, b5, a5, hr]

/-- C5 amended, at a library whose `ocr_create` returns a null handle. -/
theorem C5_amended_disabled_after_load_or_create_failure_witness :
    ((OCREngine.Call.setImage sampleImage).run sampleEnv
        (OCREngine.runCalls [(sampleEnv, .getRecogitionResult)]
          (OCREngine.new envCreateFails))).trace =
        (OCREngine.runCalls [(sampleEnv, .getRecogitionResult)]
          (OCREngine.new envCreateFails)).trace ∧
      (OCREngine.runCalls [(sampleEnv, .getRecogitionResult)]
        (OCREngine.new envCreateFails)).trace = (OCREngine.new envCreateFails).trace ∧
      ((OCREngine.Call.setImage sampleImage).run sampleEnv
        (OCREngine.runCalls [(sampleEnv, .getRecogitionResult)]
          (OCREngine.new envCreateFails))).isRunning = false ∧
      ((OCREngine.runCalls [(sampleEnv, .getRecogitionResult)]
        (OCREngine.new envCreateFails)).setLanguage sampleEnv "eng").1 = false ∧
      ((OCREngine.runCalls [(sampleEnv, .getRecogitionResult)]
        (OCREngine.new envCreateFails)).getRecogitionResult sampleEnv).1 = "" ∧
      ((OCREngine.init envCreateFails).1 = InitExit.createOCRFailed ∨
        (OCREngine.Call.setImage sampleImage).run sampleEnv
          (OCREngine.runCalls [(sampleEnv, .getRecogitionResult)]
            (OCREngine.new envCreateFails)) =
          OCREngine.runCalls [(sampleEnv, .getRecogitionResult)]
            (OCREngine.new envCreateFails)) :=
  C5_amended_disabled_after_load_or_create_failure envCreateFails
    [(sampleEnv, .getRecogitionResult)] sampleEnv (.setImage sampleImage) "eng"
    (Or.inr (by decide))

/-- C6. From every state a sequence of public calls reaches, `unloadLibrary` ends
with no library object, no handle, all 19 pointers null and an empty last error;
a second `unloadLibrary` changes nothing, the trace included. -/
theorem C6_unloadLibrary_idempotent (ops : List (Env × OCRDynamicLoader.Op)) :
    ((OCRDynamicLoader.runOps ops OCRDynamicLoader.new).unloadLibrary.m_library = none ∧
      (OCRDynamicLoader.runOps ops OCRDynamicLoader.new).unloadLibrary.m_ocrHandle = 0 ∧
      (OCRDynamicLoader.runOps ops OCRDynamicLoader.new).unloadLibrary.allNull ∧
      (OCRDynamicLoader.runOps ops OCRDynamicLoader.new).unloadLibrary.getLastError = "") ∧
    (OCRDynamicLoader.runOps ops OCRDynamicLoader.new).unloadLibrary.unloadLibrary =
      (OCRDynamicLoader.runOps ops OCRDynamicLoader.new).unloadLibrary ∧
    (OCRDynamicLoader.runOps ops OCRDynamicLoader.new).unloadLibrary.unloadLibrary.trace =
      (OCRDynamicLoader.runOps ops OCRDynamicLoader.new).unloadLibrary.trace := by
  have hw := wellFormed_runOps ops wellFormed_new
  obtain ⟨hl, hn, he, -, hh⟩ :=
    unloadLibrary_fields (OCRDynamicLoader.runOps ops OCRDynamicLoader.new)
  have hh0 : (OCRDynamicLoader.runOps ops OCRDynamicLoader.new).unloadLibrary.m_ocrHandle = 0 := by
    apply hh
    cases hld : (OCRDynamicLoader.runOps ops OCRDynamicLoader.new).isLoaded
    · exact Or.inl (hw.1 hld).2.2
    · exact Or.inr (hw.2 hld).2.1
  have hfix := unloadLibrary_fixed _ hl hh0 hn he
  exact ⟨⟨hl, hh0, hn, he⟩, hfix, by rw [hfix]⟩

/-- C7. With any one of the three version-query pointers null, `isAPICompatible`
returns true and leaves the loader and its trace as they were; and `loadLibrary`
on an unloaded loader returns true for a library that is found, loads and exports
every required symbol but lacks one of the three version-query symbols. -/
theorem C7_absent_version_queries_are_compatible (env : Env) (t s : OCRDynamicLoader)
    (ht : t.m_ocr_get_api_version_major = 0 ∨ t.m_ocr_get_api_version_minor = 0 ∨
      t.m_ocr_get_api_version_patch = 0)
    (hs : s.isLoaded = false)
    (hfound : OCRDynamicLoader.findLibraryFile env ≠ "")
    (hload : env.load (OCRDynamicLoader.findLibraryFile env) = true)
    (hreq : ∀ f ∈ OCRDynamicLoader.functions, f.required = true →
      env.resolve (OCRDynamicLoader.findLibraryFile env) f.name ≠ 0)
    (habsent : env.resolve (OCRDynamicLoader.findLibraryFile env)
        "ocr_get_api_version_major" = 0 ∨
      env.resolve (OCRDynamicLoader.findLibraryFile env) "ocr_get_api_version_minor" = 0 ∨
      env.resolve (OCRDynamicLoader.findLibraryFile env) "ocr_get_api_version_patch" = 0) :
    t.isAPICompatible env = (true, t) ∧
      (OCRDynamicLoader.loadLibrary.checked env s).1 = true ∧
      (OCRDynamicLoader.loadLibrary.checked env s).2.trace =
        s.trace ++ [.library_load (OCRDynamicLoader.findLibraryFile env)] ∧
      (s.loadLibrary env).1 = true := by
  have hcompat : ∀ u : OCRDynamicLoader,
      (u.m_ocr_get_api_version_major = 0 ∨ u.m_ocr_get_api_version_minor = 0 ∨
        u.m_ocr_get_api_version_patch = 0) → u.isAPICompatible env = (true, u) := by
    intro u hu
    simp only [OCRDynamicLoader.isAPICompatible, hu, if_true]
  obtain ⟨r1, -, -⟩ := resolved_fields env s
  have hres : ∀ n, OCRDynamicLoader.resolve env (OCRDynamicLoader.loadLibrary.resolved env s).2 n =
      env.resolve (OCRDynamicLoader.findLibraryFile env) n := by
    intro n
    simp only [OCRDynamicLoader.resolve, r1]
  obtain ⟨-, -, -, -, -, v6, v7, v8⟩ :=
    loadVersionFunctions_fields env (OCRDynamicLoader.loadLibrary.resolved env s).2
  rw [hres] at v6 v7 v8
  have hv : (OCRDynamicLoader.loadLibrary.versioned env s).m_ocr_get_api_version_major = 0 ∨
      (OCRDynamicLoader.loadLibrary.versioned env s).m_ocr_get_api_version_minor = 0 ∨
      (OCRDynamicLoader.loadLibrary.versioned env s).m_ocr_get_api_version_patch = 0 := by
    unfold OCRDynamicLoader.loadLibrary.versioned
    rw [v6, v7, v8]
    exact habsent
  have hchk : OCRDynamicLoader.loadLibrary.checked env s =
      (true, OCRDynamicLoader.loadLibrary.versioned env s) := hcompat _ hv
  have hresolved : (OCRDynamicLoader.loadLibrary.resolved env s).1 = true := by
    refine (loop_true_iff env OCRDynamicLoader.functions _).2 (fun f hf hr => ?_)
    have : OCRDynamicLoader.resolve env (OCRDynamicLoader.loadLibrary.opened env s) f.name =
        env.resolve (OCRDynamicLoader.findLibraryFile env) f.name := rfl
    rw [this]
    exact hreq f hf hr
  refine ⟨hcompat t ht, by rw [hchk], ?_, ?_⟩
  · rw [hchk]
    exact (versioned_fields env s).2.2.1
  · rw [loadLibrary_of_not_isLoaded env s hs]
    simp [hfound, hload, hresolved, hchk]

/-- C7, at a library that lacks only `ocr_get_api_version_minor`. -/
theorem C7_absent_version_queries_are_compatible_witness :
    ({ sampleLoader with m_ocr_get_api_version_minor := 0 } : OCRDynamicLoader).isAPICompatible
        envNoVersionQuery =
        (true, { sampleLoader with m_ocr_get_api_version_minor := 0 }) ∧
      (OCRDynamicLoader.loadLibrary.checked envNoVersionQuery OCRDynamicLoader.new).1 = true ∧
      (OCRDynamicLoader.loadLibrary.checked envNoVersionQuery OCRDynamicLoader.new).2.trace =
        OCRDynamicLoader.new.trace ++
          [.library_load (OCRDynamicLoader.findLibraryFile envNoVersionQuery)] ∧
      (OCRDynamicLoader.new.loadLibrary envNoVersionQuery).1 = true :=
  C7_absent_version_queries_are_compatible envNoVersionQuery
    { sampleLoader with m_ocr_get_api_version_minor := 0 } OCRDynamicLoader.new
    (Or.inr (Or.inl rfl)) rfl (by decide) (by decide) (by decide) (Or.inr (Or.inl (by decide)))

/-- C8. After a `createOCR` that returned true, and any public calls other than
`destroyOCR` and `unloadLibrary` in between, `createOCR` returns true again, adds
no event to the trace (so does not call `ocr_create`), leaves the loader as it
was, and the handle is still the one the first call left. -/
theorem C8_createOCR_twice_keeps_handle (ops : List (Env × OCRDynamicLoader.Op)) (env1 : Env)
    (mid : List (Env × OCRDynamicLoader.Op)) (env2 : Env)
    (hfirst : ((OCRDynamicLoader.runOps ops OCRDynamicLoader.new).createOCR env1).1 = true)
    (hmid : ∀ p ∈ mid, p.2 ≠ OCRDynamicLoader.Op.destroyOCR ∧
      p.2 ≠ OCRDynamicLoader.Op.unloadLibrary) :
    ((OCRDynamicLoader.runOps mid
        ((OCRDynamicLoader.runOps ops OCRDynamicLoader.new).createOCR env1).2).createOCR
          env2).1 = true ∧
      ((OCRDynamicLoader.runOps mid
        ((OCRDynamicLoader.runOps ops OCRDynamicLoader.new).createOCR env1).2).createOCR
          env2).2.trace =
        (OCRDynamicLoader.runOps mid
          ((OCRDynamicLoader.runOps ops OCRDynamicLoader.new).createOCR env1).2).trace ∧
      ((OCRDynamicLoader.runOps mid
        ((OCRDynamicLoader.runOps ops OCRDynamicLoader.new).createOCR env1).2).createOCR
          env2).2.m_ocrHandle =
        ((OCRDynamicLoader.runOps ops OCRDynamicLoader.new).createOCR env1).2.m_ocrHandle ∧
      ((OCRDynamicLoader.runOps ops OCRDynamicLoader.new).createOCR env1).2.m_ocrHandle ≠ 0 := by
  have hw := wellFormed_createOCR env1 (wellFormed_runOps ops wellFormed_new)
  have hh := createOCR_true_handle env1 _ hfirst
  have hk := runOps_keeps_handle mid hw hh hmid
  have hc := createOCR_of_handle env2
    (OCRDynamicLoader.runOps mid
      ((OCRDynamicLoader.runOps ops OCRDynamicLoader.new).createOCR env1).2)
    (by rw [hk]; exact hh)
  rw [hc]
  exact ⟨rfl, rfl, hk, hh⟩

/-- C8, with `analyze` and `setLanguage` called between the two `createOCR`. -/
theorem C8_createOCR_twice_keeps_handle_witness :
    ((OCRDynamicLoader.runOps [(sampleEnv, .analyze), (sampleEnv, .setLanguage "eng")]
        ((OCRDynamicLoader.runOps [(sampleEnv, .loadLibrary)]
          OCRDynamicLoader.new).createOCR sampleEnv).2).createOCR envCreateFails).1 = true ∧
      ((OCRDynamicLoader.runOps [(sampleEnv, .analyze), (sampleEnv, .setLanguage "eng")]
        ((OCRDynamicLoader.runOps [(sampleEnv, .loadLibrary)]
          OCRDynamicLoader.new).createOCR sampleEnv).2).createOCR envCreateFails).2.trace =
        (OCRDynamicLoader.runOps [(sampleEnv, .analyze), (sampleEnv, .setLanguage "eng")]
          ((OCRDynamicLoader.runOps [(sampleEnv, .loadLibrary)]
            OCRDynamicLoader.new).createOCR sampleEnv).2).trace ∧
      ((OCRDynamicLoader.runOps [(sampleEnv, .analyze), (sampleEnv, .setLanguage "eng")]
        ((OCRDynamicLoader.runOps [(sampleEnv, .loadLibrary)]
          OCRDynamicLoader.new).createOCR sampleEnv).2).createOCR envCreateFails).2.m_ocrHandle =
        ((OCRDynamicLoader.runOps [(sampleEnv, .loadLibrary)]
          OCRDynamicLoader.new).createOCR sampleEnv).2.m_ocrHandle ∧
      ((OCRDynamicLoader.runOps [(sampleEnv, .loadLibrary)]
        OCRDynamicLoader.new).createOCR sampleEnv).2.m_ocrHandle ≠ 0 :=
  C8_createOCR_twice_keeps_handle [(sampleEnv, .loadLibrary)] sampleEnv
    [(sampleEnv, .analyze), (sampleEnv, .setLanguage "eng")] envCreateFails (by decide)
    (by simp)

/-- C9. With no handle held, each of `loadDefaultPlugin`, `setHardware`,
`setMaxThreads`, `setLanguage`, `setImageFile`, `setImage`, `analyze`,
`getSimpleResult` and `getTextBoxes` returns its failure value (false, the empty
string, the null pointer), adds no event to the trace and leaves a non-empty last
error, whatever the function pointers are. -/
theorem C9_no_handle_fails_without_native_call (env : Env) (s : OCRDynamicLoader)
    (type : HardwareType) (deviceId count : Int) (language filePath : String)
    (image : QImage) (hh : s.m_ocrHandle = 0) :
    ((s.loadDefaultPlugin env).1 = false ∧ (s.loadDefaultPlugin env).2.trace = s.trace ∧
        (s.loadDefaultPlugin env).2.getLastError ≠ "") ∧
      ((s.setHardware env type deviceId).1 = false ∧ (s.setHardware env type deviceId).2.trace =
          s.trace ∧
        (s.setHardware env type deviceId).2.getLastError ≠ "") ∧
      ((s.setMaxThreads env count).1 = false ∧ (s.setMaxThreads env count).2.trace = s.trace ∧
        (s.setMaxThreads env count).2.getLastError ≠ "") ∧
      ((s.setLanguage env language).1 = false ∧ (s.setLanguage env language).2.trace = s.trace ∧
        (s.setLanguage env language).2.getLastError ≠ "") ∧
      ((s.setImageFile env filePath).1 = false ∧ (s.setImageFile env filePath).2.trace = s.trace ∧
        (s.setImageFile env filePath).2.getLastError ≠ "") ∧
      ((s.setImage env image).1 = false ∧ (s.setImage env image).2.trace = s.trace ∧
        (s.setImage env image).2.getLastError ≠ "") ∧
      ((s.analyze env).1 = false ∧ (s.analyze env).2.trace = s.trace ∧
        (s.analyze env).2.getLastError ≠ "") ∧
      ((s.getSimpleResult env).1 = "" ∧ (s.getSimpleResult env).2.trace = s.trace ∧
        (s.getSimpleResult env).2.getLastError ≠ "") ∧
      ((s.getTextBoxes env).1 = 0 ∧ (s.getTextBoxes env).2.trace = s.trace ∧
        (s.getTextBoxes env).2.getLastError ≠ "") := by
  have hne : ("OCR实例未创建" : String) ≠ "" := by decide
  simp only [OCRDynamicLoader.loadDefaultPlugin, OCRDynamicLoader.setHardware,
    OCRDynamicLoader.setMaxThreads, OCRDynamicLoader.setLanguage,
    OCRDynamicLoader.setImageFile, OCRDynamicLoader.setImage, OCRDynamicLoader.analyze,
    OCRDynamicLoader.getSimpleResult, OCRDynamicLoader.getTextBoxes, hh, if_true,
    OCRDynamicLoader.setError, OCRDynamicLoader.getLastError, ne_eq, hne, not_false_eq_true,
    and_self]

/-- C9, at a new loader. -/
theorem C9_no_handle_fails_without_native_call_witness :
    ((OCRDynamicLoader.new.loadDefaultPlugin sampleEnv).1 = false ∧
        (OCRDynamicLoader.new.loadDefaultPlugin sampleEnv).2.trace = OCRDynamicLoader.new.trace ∧
        (OCRDynamicLoader.new.loadDefaultPlugin sampleEnv).2.getLastError ≠ "") ∧
      ((OCRDynamicLoader.new.setHardware sampleEnv .HARDWARE_GPU_VULKAN 0).1 = false ∧
          (OCRDynamicLoader.new.setHardware sampleEnv .HARDWARE_GPU_VULKAN 0).2.trace =
              OCRDynamicLoader.new.trace ∧
        (OCRDynamicLoader.new.setHardware sampleEnv .HARDWARE_GPU_VULKAN 0).2.getLastError ≠ "") ∧
      ((OCRDynamicLoader.new.setMaxThreads sampleEnv 2).1 = false ∧
          (OCRDynamicLoader.new.setMaxThreads sampleEnv 2).2.trace = OCRDynamicLoader.new.trace ∧
        (OCRDynamicLoader.new.setMaxThreads sampleEnv 2).2.getLastError ≠ "") ∧
      ((OCRDynamicLoader.new.setLanguage sampleEnv "eng").1 = false ∧
          (OCRDynamicLoader.new.setLanguage sampleEnv "eng").2.trace = OCRDynamicLoader.new.trace ∧
        (OCRDynamicLoader.new.setLanguage sampleEnv "eng").2.getLastError ≠ "") ∧
      ((OCRDynamicLoader.new.setImageFile sampleEnv "/tmp/a.png").1 = false ∧
          (OCRDynamicLoader.new.setImageFile sampleEnv "/tmp/a.png").2.trace =
              OCRDynamicLoader.new.trace ∧
        (OCRDynamicLoader.new.setImageFile sampleEnv "/tmp/a.png").2.getLastError ≠ "") ∧
      ((OCRDynamicLoader.new.setImage sampleEnv sampleImage).1 = false ∧
          (OCRDynamicLoader.new.setImage sampleEnv sampleImage).2.trace =
              OCRDynamicLoader.new.trace ∧
        (OCRDynamicLoader.new.setImage sampleEnv sampleImage).2.getLastError ≠ "") ∧
      ((OCRDynamicLoader.new.analyze sampleEnv).1 = false ∧ (OCRDynamicLoader.new.analyze
          sampleEnv).2.trace = OCRDynamicLoader.new.trace ∧
        (OCRDynamicLoader.new.analyze sampleEnv).2.getLastError ≠ "") ∧
      ((OCRDynamicLoader.new.getSimpleResult sampleEnv).1 = "" ∧
          (OCRDynamicLoader.new.getSimpleResult sampleEnv).2.trace = OCRDynamicLoader.new.trace ∧
        (OCRDynamicLoader.new.getSimpleResult sampleEnv).2.getLastError ≠ "") ∧
      ((OCRDynamicLoader.new.getTextBoxes sampleEnv).1 = 0 ∧ (OCRDynamicLoader.new.getTextBoxes
          sampleEnv).2.trace = OCRDynamicLoader.new.trace ∧
        (OCRDynamicLoader.new.getTextBoxes sampleEnv).2.getLastError ≠ "") :=
  C9_no_handle_fails_without_native_call sampleEnv OCRDynamicLoader.new .HARDWARE_GPU_VULKAN 0 2
    "eng" "/tmp/a.png" sampleImage rfl

/-- C10. With a handle held and the operation's own entry null: `setHardware`,
`setMaxThreads` and `setLanguage` return true and leave the loader, its last error
and its trace as they were; `setImageFile`, `setImage`, `analyze` and
`getSimpleResult` return false or the empty string, record a non-empty last error
and add no event to the trace. -/
theorem C10_missing_entry_optional_vs_required (env : Env) (s : OCRDynamicLoader)
    (type : HardwareType) (deviceId count : Int) (language filePath : String)
    (image : QImage) (hh : s.m_ocrHandle ≠ 0) :
    (OCRDynamicLoader.setSlot s 0 .m_ocr_set_hardware).setHardware env type deviceId =
        (true, OCRDynamicLoader.setSlot s 0 .m_ocr_set_hardware) ∧
      (OCRDynamicLoader.setSlot s 0 .m_ocr_set_max_threads).setMaxThreads env count =
        (true, OCRDynamicLoader.setSlot s 0 .m_ocr_set_max_threads) ∧
      (OCRDynamicLoader.setSlot s 0 .m_ocr_set_language).setLanguage env language =
        (true, OCRDynamicLoader.setSlot s 0 .m_ocr_set_language) ∧
      (((OCRDynamicLoader.setSlot s 0 .m_ocr_set_image_file).setImageFile env filePath).1 = false ∧
        ((OCRDynamicLoader.setSlot s 0 .m_ocr_set_image_file).setImageFile env
            filePath).2.getLastError =
            "ocr_set_image_file函数未加载" ∧
        ((OCRDynamicLoader.setSlot s 0 .m_ocr_set_image_file).setImageFile env
            filePath).2.getLastError ≠
            "" ∧
        ((OCRDynamicLoader.setSlot s 0 .m_ocr_set_image_file).setImageFile env filePath).2.trace =
            s.trace) ∧
      (((OCRDynamicLoader.setSlot s 0 .m_ocr_set_image_data).setImage env image).1 = false ∧
        ((OCRDynamicLoader.setSlot s 0 .m_ocr_set_image_data).setImage env image).2.getLastError =
            "ocr_set_image_data函数未加载" ∧
        ((OCRDynamicLoader.setSlot s 0 .m_ocr_set_image_data).setImage env image).2.getLastError ≠
            "" ∧
        ((OCRDynamicLoader.setSlot s 0 .m_ocr_set_image_data).setImage env image).2.trace =
            s.trace) ∧
      (((OCRDynamicLoader.setSlot s 0 .m_ocr_analyze).analyze env).1 = false ∧
        ((OCRDynamicLoader.setSlot s 0 .m_ocr_analyze).analyze env).2.getLastError =
            "ocr_analyze函数未加载" ∧
        ((OCRDynamicLoader.setSlot s 0 .m_ocr_analyze).analyze env).2.getLastError ≠ "" ∧
        ((OCRDynamicLoader.setSlot s 0 .m_ocr_analyze).analyze env).2.trace = s.trace) ∧
      (((OCRDynamicLoader.setSlot s 0 .m_ocr_get_simple_result).getSimpleResult env).1 = "" ∧
        ((OCRDynamicLoader.setSlot s 0 .m_ocr_get_simple_result).getSimpleResult
            env).2.getLastError =
            "ocr_get_simple_result函数未加载" ∧
        ((OCRDynamicLoader.setSlot s 0 .m_ocr_get_simple_result).getSimpleResult
            env).2.getLastError ≠
            "" ∧
        ((OCRDynamicLoader.setSlot s 0 .m_ocr_get_simple_result).getSimpleResult env).2.trace =
            s.trace) := by
  have h1 : ("ocr_set_image_file函数未加载" : String) ≠ "" := by decide
  have h2 : ("ocr_set_image_data函数未加载" : String) ≠ "" := by decide
  have h3 : ("ocr_analyze函数未加载" : String) ≠ "" := by decide
  have h4 : ("ocr_get_simple_result函数未加载" : String) ≠ "" := by decide
  simp only [OCRDynamicLoader.setSlot, OCRDynamicLoader.setHardware, OCRDynamicLoader.setMaxThreads,
    OCRDynamicLoader.setLanguage, OCRDynamicLoader.setImageFile, OCRDynamicLoader.setImage,
    OCRDynamicLoader.analyze, OCRDynamicLoader.getSimpleResult, hh, if_true, if_false,
    OCRDynamicLoader.setError, OCRDynamicLoader.getLastError, ne_eq, h1, h2, h3, h4,
    not_false_eq_true, and_self]

/-- C10, at a loader that holds handle 7. -/
theorem C10_missing_entry_optional_vs_required_witness :
    (OCRDynamicLoader.setSlot sampleLoader 0 .m_ocr_set_hardware).setHardware sampleEnv
        .HARDWARE_GPU_VULKAN 0 =
        (true, OCRDynamicLoader.setSlot sampleLoader 0 .m_ocr_set_hardware) ∧
      (OCRDynamicLoader.setSlot sampleLoader 0 .m_ocr_set_max_threads).setMaxThreads sampleEnv 2 =
        (true, OCRDynamicLoader.setSlot sampleLoader 0 .m_ocr_set_max_threads) ∧
      (OCRDynamicLoader.setSlot sampleLoader 0 .m_ocr_set_language).setLanguage sampleEnv "eng" =
        (true, OCRDynamicLoader.setSlot sampleLoader 0 .m_ocr_set_language) ∧
      (((OCRDynamicLoader.setSlot sampleLoader 0 .m_ocr_set_image_file).setImageFile sampleEnv
          "/tmp/a.png").1 =
          false ∧
        ((OCRDynamicLoader.setSlot sampleLoader 0 .m_ocr_set_image_file).setImageFile sampleEnv
            "/tmp/a.png").2.getLastError =
            "ocr_set_image_file函数未加载" ∧
        ((OCRDynamicLoader.setSlot sampleLoader 0 .m_ocr_set_image_file).setImageFile sampleEnv
            "/tmp/a.png").2.getLastError ≠
            "" ∧
        ((OCRDynamicLoader.setSlot sampleLoader 0 .m_ocr_set_image_file).setImageFile sampleEnv
            "/tmp/a.png").2.trace =
            sampleLoader.trace) ∧
      (((OCRDynamicLoader.setSlot sampleLoader 0 .m_ocr_set_image_data).setImage sampleEnv
          sampleImage).1 =
          false ∧
        ((OCRDynamicLoader.setSlot sampleLoader 0 .m_ocr_set_image_data).setImage sampleEnv
            sampleImage).2.getLastError =
            "ocr_set_image_data函数未加载" ∧
        ((OCRDynamicLoader.setSlot sampleLoader 0 .m_ocr_set_image_data).setImage sampleEnv
            sampleImage).2.getLastError ≠
            "" ∧
        ((OCRDynamicLoader.setSlot sampleLoader 0 .m_ocr_set_image_data).setImage sampleEnv
            sampleImage).2.trace =
            sampleLoader.trace) ∧
      (((OCRDynamicLoader.setSlot sampleLoader 0 .m_ocr_analyze).analyze sampleEnv).1 = false ∧
        ((OCRDynamicLoader.setSlot sampleLoader 0 .m_ocr_analyze).analyze
            sampleEnv).2.getLastError =
            "ocr_analyze函数未加载" ∧
        ((OCRDynamicLoader.setSlot sampleLoader 0 .m_ocr_analyze).analyze
            sampleEnv).2.getLastError ≠
            "" ∧
        ((OCRDynamicLoader.setSlot sampleLoader 0 .m_ocr_analyze).analyze sampleEnv).2.trace =
            sampleLoader.trace) ∧
      (((OCRDynamicLoader.setSlot sampleLoader 0 .m_ocr_get_simple_result).getSimpleResult
          sampleEnv).1 =
          "" ∧
        ((OCRDynamicLoader.setSlot sampleLoader 0 .m_ocr_get_simple_result).getSimpleResult
            sampleEnv).2.getLastError =
            "ocr_get_simple_result函数未加载" ∧
        ((OCRDynamicLoader.setSlot sampleLoader 0 .m_ocr_get_simple_result).getSimpleResult
            sampleEnv).2.getLastError ≠
            "" ∧
        ((OCRDynamicLoader.setSlot sampleLoader 0 .m_ocr_get_simple_result).getSimpleResult
            sampleEnv).2.trace =
            sampleLoader.trace) :=
  C10_missing_entry_optional_vs_required sampleEnv sampleLoader .HARDWARE_GPU_VULKAN 0 2
    "eng" "/tmp/a.png" sampleImage (by decide)

/-- C11. In the state after any sequence of public calls from construction, the
function table and the handle agree with the library: either `isLoaded` is false,
all 19 function pointers are null and no handle is held, or `isLoaded` is true and
every required entry is non-null; so either no handle is held or every required
entry is non-null. -/
theorem C11_table_and_handle_valid_iff_loaded (ops : List (Env × OCRDynamicLoader.Op)) :
    (OCRDynamicLoader.runOps ops OCRDynamicLoader.new).wellFormed ∧
      (((OCRDynamicLoader.runOps ops OCRDynamicLoader.new).isLoaded = false ∧
          (OCRDynamicLoader.runOps ops OCRDynamicLoader.new).allNull ∧
          (OCRDynamicLoader.runOps ops OCRDynamicLoader.new).m_ocrHandle = 0) ∨
        ((OCRDynamicLoader.runOps ops OCRDynamicLoader.new).isLoaded = true ∧
          (OCRDynamicLoader.runOps ops OCRDynamicLoader.new).requiredResolved)) ∧
      ((OCRDynamicLoader.runOps ops OCRDynamicLoader.new).m_ocrHandle = 0 ∨
        (OCRDynamicLoader.runOps ops OCRDynamicLoader.new).requiredResolved) := by
  have hw := wellFormed_runOps ops wellFormed_new
  refine ⟨hw, ?_, ?_⟩
  · cases hld : (OCRDynamicLoader.runOps ops OCRDynamicLoader.new).isLoaded
    · exact Or.inl ⟨rfl, (hw.1 hld).2.1, (hw.1 hld).2.2⟩
    · exact Or.inr ⟨rfl, hw.2 hld⟩
  · cases hld : (OCRDynamicLoader.runOps ops OCRDynamicLoader.new).isLoaded
    · exact Or.inl (hw.1 hld).2.2
    · exact Or.inr (hw.2 hld)

/-- C12. When no candidate name loads by itself and `QDir::absoluteFilePath` joins
a directory and a name as `dir/name`, `findLibraryFile` over a path list and a name
list returns the path `dir/name` of the first pair, paths first and names within a
path, whose directory exists and whose file exists and is readable, and returns the
empty string exactly when there is no such pair. -/
theorem C12_findLibraryFile_first_readable_pair (env : Env) (paths names : List String)
    (hauto : ∀ n ∈ names, env.testLibLoad n = false)
    (habs : ∀ p ∈ paths, ∀ n ∈ names, env.absoluteFilePath p n = p ++ "/" ++ n) :
    OCRDynamicLoader.findLibraryFileIn env paths names =
        ((firstReadablePair env paths names).map
          (fun pair => pair.1 ++ "/" ++ pair.2)).getD "" ∧
      (OCRDynamicLoader.findLibraryFileIn env paths names = "" ↔
        firstReadablePair env paths names = none) ∧
      OCRDynamicLoader.findLibraryFile env =
        OCRDynamicLoader.findLibraryFileIn env (OCRDynamicLoader.getSystemLibraryPaths env)
          OCRDynamicLoader.getLibraryNames := by
  have hfind : OCRDynamicLoader.findLibraryFileIn env paths names =
      ((firstReadablePair env paths names).map
        (fun pair => pair.1 ++ "/" ++ pair.2)).getD "" := by
    simp only [OCRDynamicLoader.findLibraryFileIn, autoSearch_none env names hauto,
      manualSearch_eq env paths names habs]
    cases firstReadablePair env paths names <;> rfl
  refine ⟨hfind, ?_, rfl⟩
  rw [hfind]
  cases firstReadablePair env paths names with
  | none => simp
  | some pair => simpa using join_ne_empty pair.1 pair.2

/-- C12, at the scenario of the specification: the probe returns exactly
`/usr/lib/libfoo.so`. -/
theorem C12_findLibraryFile_first_readable_pair_witness :
    (OCRDynamicLoader.findLibraryFileIn envLibfoo ["/usr/lib"] ["libfoo.so"] =
        ((firstReadablePair envLibfoo ["/usr/lib"] ["libfoo.so"]).map
          (fun pair => pair.1 ++ "/" ++ pair.2)).getD "" ∧
      (OCRDynamicLoader.findLibraryFileIn envLibfoo ["/usr/lib"] ["libfoo.so"] = "" ↔
        firstReadablePair envLibfoo ["/usr/lib"] ["libfoo.so"] = none) ∧
      OCRDynamicLoader.findLibraryFile envLibfoo =
        OCRDynamicLoader.findLibraryFileIn envLibfoo
          (OCRDynamicLoader.getSystemLibraryPaths envLibfoo)
          OCRDynamicLoader.getLibraryNames) ∧
    firstReadablePair envLibfoo ["/usr/lib"] ["libfoo.so"] = some ("/usr/lib", "libfoo.so") ∧
    OCRDynamicLoader.findLibraryFileIn envLibfoo ["/usr/lib"] ["libfoo.so"] = "/usr/lib/libfoo.so"
        :=
  ⟨C12_findLibraryFile_first_readable_pair envLibfoo ["/usr/lib"] ["libfoo.so"]
    (by decide) (by decide), by decide, by decide⟩

/-- C13. For a non-empty language, on an engine whose loader is loaded and whose
`isRunning()` reports true, `OCREngine::setLanguage` runs the loader's
`breakAnalyze` and then the loader's `setLanguage` on the loader `breakAnalyze`
left, whatever `breakAnalyze` returned, and returns the loader's `setLanguage`
result: the events added are `ocr_is_running`, then `ocr_break_analyze` (when that
entry is resolved), then `ocr_set_language` (when that entry is resolved). -/
theorem C13_setLanguage_breaks_running_analysis (env : Env) (e : OCREngine)
    (l : OCRDynamicLoader) (language : String)
    (he : e.ocrLoader = some l) (hloaded : l.isLoaded = true) (hlang : language ≠ "")
    (hrun : (l.isRunning env).1 = true) :
    (e.setLanguage env language).1 =
        ((((l.isRunning env).2.breakAnalyze env).2).setLanguage env language).1 ∧
      (e.setLanguage env language).2.ocrLoader =
        some ((((l.isRunning env).2.breakAnalyze env).2).setLanguage env language).2 ∧
      (e.setLanguage env language).2.trace =
        l.trace ++ [.ocr_is_running l.m_ocrHandle] ++
          (if l.m_ocr_break_analyze = 0 then [] else [.ocr_break_analyze l.m_ocrHandle]) ++
          (if l.m_ocr_set_language = 0 then []
            else [.ocr_set_language l.m_ocrHandle language]) ∧
      (e.setLanguage env language).2.isRunning = e.isRunning := by
  obtain ⟨lo, r⟩ := e
  simp only at he
  subst he
  obtain ⟨hh, -, hstate⟩ := isRunning_true_fields env l hrun
  have hset : (OCREngine.setLanguage env language ⟨some l, r⟩) =
      (((((l.isRunning env).2.breakAnalyze env).2).setLanguage env language).1,
        ⟨some ((((l.isRunning env).2.breakAnalyze env).2).setLanguage env language).2, r⟩) := by
    simp only [OCREngine.setLanguage, hloaded, Bool.not_true, Bool.false_eq_true, if_false,
      hlang, hrun, if_true]
  rw [hset]
  refine ⟨rfl, rfl, ?_, rfl⟩
  have h1 : (l.isRunning env).2.m_ocrHandle = l.m_ocrHandle := by rw [hstate]; rfl
  have h2 := breakAnalyze_trace env (l.isRunning env).2 (by rw [h1]; exact hh)
  have h3 := core_fields h2.2
  have h4 := setLanguage_trace env language ((l.isRunning env).2.breakAnalyze env).2
    (by rw [h3.2.1, h1]; exact hh)
  have e1 : ((l.isRunning env).2.breakAnalyze env).2.m_ocr_set_language = l.m_ocr_set_language := by
    have hk : ((l.isRunning env).2.breakAnalyze env).2.m_ocr_set_language =
        (l.isRunning env).2.m_ocr_set_language := h3.2.2.2.2.2.1 .m_ocr_set_language
    rw [hk, hstate]
    rfl
  have e2 : (l.isRunning env).2.m_ocr_break_analyze = l.m_ocr_break_analyze := by
    rw [hstate]; rfl
  have e3 : (l.isRunning env).2.trace = l.trace ++ [.ocr_is_running l.m_ocrHandle] := by
    rw [hstate]; rfl
  simp only [OCREngine.trace, h4, h2.1, h3.2.1, h1, e1, e2, e3]

/-- C13, at an engine whose library reports a running analysis; the native
`ocr_break_analyze` returns 1, so `breakAnalyze` returns false, and the language
is set all the same. -/
theorem C13_setLanguage_breaks_running_analysis_witness :
    (sampleEngine.setLanguage envRunning "eng").1 =
        ((((sampleLoader.isRunning envRunning).2.breakAnalyze envRunning).2).setLanguage
          envRunning "eng").1 ∧
      (sampleEngine.setLanguage envRunning "eng").2.ocrLoader =
        some ((((sampleLoader.isRunning envRunning).2.breakAnalyze envRunning).2).setLanguage
          envRunning "eng").2 ∧
      (sampleEngine.setLanguage envRunning "eng").2.trace =
        sampleLoader.trace ++ [.ocr_is_running sampleLoader.m_ocrHandle] ++
          (if sampleLoader.m_ocr_break_analyze = 0 then []
            else [.ocr_break_analyze sampleLoader.m_ocrHandle]) ++
          (if sampleLoader.m_ocr_set_language = 0 then []
            else [.ocr_set_language sampleLoader.m_ocrHandle "eng"]) ∧
      (sampleEngine.setLanguage envRunning "eng").2.isRunning = sampleEngine.isRunning :=
  C13_setLanguage_breaks_running_analysis envRunning sampleEngine sampleLoader "eng" rfl
    (by decide) (by decide) (by decide)

/-- C14. For an unloaded loader, a library file that is found and an image that
loads, `loadLibrary` returns true exactly when every REQUIRED symbol resolves and
the version gate passes; and it returns the same whatever the library exports
under the OPTIONAL names of the function table. -/
theorem C14_loadLibrary_true_iff_required_and_version (env : Env) (s : OCRDynamicLoader)
    (r : String → String → Ptr)
    (hs : s.isLoaded = false)
    (hfound : OCRDynamicLoader.findLibraryFile env ≠ "")
    (hload : env.load (OCRDynamicLoader.findLibraryFile env) = true) :
    ((s.loadLibrary env).1 = true ↔
        (∀ n ∈ requiredSymbols, env.resolve (OCRDynamicLoader.findLibraryFile env) n ≠ 0) ∧
          versionGate env (OCRDynamicLoader.findLibraryFile env)
            (s.trace ++ [.library_load (OCRDynamicLoader.findLibraryFile env)]) = true) ∧
      (s.loadLibrary (withOptionalSymbols env r)).1 =
        (s.loadLibrary env).1 ∧
      requiredSymbols =
        (OCRDynamicLoader.functions.filter (fun f => f.required)).map (fun f => f.name) ∧
      optionalSymbols =
        (OCRDynamicLoader.functions.filter (fun f => !f.required)).map (fun f => f.name) := by
  refine ⟨loadLibrary_true_iff env s hs hfound hload, ?_, by decide, by decide⟩
  have hpath : OCRDynamicLoader.findLibraryFile (withOptionalSymbols env r) =
      OCRDynamicLoader.findLibraryFile env := by
    unfold OCRDynamicLoader.findLibraryFile
    exact findLibraryFileIn_congr env _ _ _ rfl rfl rfl rfl rfl
  have h1 := loadLibrary_true_iff env s hs hfound hload
  have h2 := loadLibrary_true_iff (withOptionalSymbols env r) s hs
    (by rw [hpath]; exact hfound) (by rw [hpath]; exact hload)
  rw [hpath] at h2
  have hreq : (∀ n ∈ requiredSymbols,
      (if n ∈ optionalSymbols then r (OCRDynamicLoader.findLibraryFile env) n
        else env.resolve (OCRDynamicLoader.findLibraryFile env) n) ≠ 0) ↔
      (∀ n ∈ requiredSymbols, env.resolve (OCRDynamicLoader.findLibraryFile env) n ≠ 0) := by
    have hno : ∀ n ∈ requiredSymbols, n ∉ optionalSymbols := by decide
    constructor
    · intro h n hn
      have := h n hn
      rwa [if_neg (hno n hn)] at this
    · intro h n hn
      rw [if_neg (hno n hn)]
      exact h n hn
  have hgate : versionGate (withOptionalSymbols env r)
      (OCRDynamicLoader.findLibraryFile env) (s.trace ++ [.library_load
          (OCRDynamicLoader.findLibraryFile env)]) =
      versionGate env (OCRDynamicLoader.findLibraryFile env)
        (s.trace ++ [.library_load (OCRDynamicLoader.findLibraryFile env)]) := by
    have e1 : ("ocr_get_api_version_major" ∈ optionalSymbols) = False := by decide
    have e2 : ("ocr_get_api_version_minor" ∈ optionalSymbols) = False := by decide
    have e3 : ("ocr_get_api_version_patch" ∈ optionalSymbols) = False := by decide
    simp only [versionGate, withOptionalSymbols, e1, e2, e3, if_false]
  simp only [hgate] at h2
  have h3 := h2.trans ((and_congr_left' hreq).trans h1.symm)
  cases ha : (s.loadLibrary env).1 <;>
    cases hb : (s.loadLibrary (withOptionalSymbols env r)).1 <;>
    simp_all

/-- C14, at a new loader and the sample library stripped of every OPTIONAL symbol:
`loadLibrary` still returns true. -/
theorem C14_loadLibrary_true_iff_required_and_version_witness :
    (((OCRDynamicLoader.new.loadLibrary sampleEnv).1 = true ↔
        (∀ n ∈ requiredSymbols,
          sampleEnv.resolve (OCRDynamicLoader.findLibraryFile sampleEnv) n ≠ 0) ∧
          versionGate sampleEnv (OCRDynamicLoader.findLibraryFile sampleEnv)
            (OCRDynamicLoader.new.trace ++
              [.library_load (OCRDynamicLoader.findLibraryFile sampleEnv)]) = true) ∧
      (OCRDynamicLoader.new.loadLibrary (withOptionalSymbols sampleEnv (fun _ _ => 0))).1 =
        (OCRDynamicLoader.new.loadLibrary sampleEnv).1 ∧
      requiredSymbols =
        (OCRDynamicLoader.functions.filter (fun f => f.required)).map (fun f => f.name) ∧
      optionalSymbols =
        (OCRDynamicLoader.functions.filter (fun f => !f.required)).map (fun f => f.name)) ∧
    (OCRDynamicLoader.new.loadLibrary sampleEnv).1 = true :=
  ⟨C14_loadLibrary_true_iff_required_and_version sampleEnv OCRDynamicLoader.new (fun _ _ => 0)
    rfl (by decide) (by decide), by decide⟩

/-- C15. For an engine reached from its constructor by any calls of `setImage`,
`setLanguage` and `getRecogitionResult`: when `getRecogitionResult` returns the
running flag is false; unless the loader is loaded and `pluginReady()` is true the
call adds no `ocr_analyze` event to the trace; and the call returns the loader's
`getSimpleResult` value when the loader is loaded, `pluginReady()` is true and
`analyze()` succeeds, and the empty string otherwise. -/
theorem C15_getRecogitionResult_flag_and_result (env0 : Env)
    (calls : List (Env × OCREngine.Call)) (env : Env) (l : OCRDynamicLoader)
    (he : (OCREngine.runCalls calls (OCREngine.new env0)).ocrLoader = some l) :
    ((OCREngine.runCalls calls (OCREngine.new env0)).getRecogitionResult env).2.isRunning =
        false ∧
      ((l.isLoaded = true ∧ (l.pluginReady env).1 = true) ∨
        analyzeCalls
            ((OCREngine.runCalls calls (OCREngine.new env0)).getRecogitionResult env).2.trace =
          analyzeCalls (OCREngine.runCalls calls (OCREngine.new env0)).trace) ∧
      ((OCREngine.runCalls calls (OCREngine.new env0)).getRecogitionResult env).1 =
        (if l.isLoaded = true ∧ (l.pluginReady env).1 = true then
          if ((l.pluginReady env).2.analyze env).1 = true then
            (((l.pluginReady env).2.analyze env).2.getSimpleResult env).1
          else ""
        else "") := by
  have hflag := runCalls_m_isRunning calls _ (new_m_isRunning env0)
  generalize OCREngine.runCalls calls (OCREngine.new env0) = e at he hflag
  obtain ⟨lo, r⟩ := e
  simp only at he hflag
  subst he hflag
  simp only [OCREngine.getRecogitionResult, OCREngine.isRunning, OCREngine.trace]
  cases hld : l.isLoaded
  · simp
  · cases hrd : (l.pluginReady env).1
    · simp [pluginReady_analyzeCalls]
    · cases han : ((l.pluginReady env).2.analyze env).1 <;> simp [han]

/-- C15, at the engine the constructor builds from the sample library, after one
`setImage`: the loader is loaded and ready, `ocr_analyze` is called once and the
call returns the text the library recognised. -/
theorem C15_getRecogitionResult_flag_and_result_witness :
    ((sampleRun.getRecogitionResult sampleEnv).2.isRunning = false ∧
      (((sampleRun.ocrLoader.getD OCRDynamicLoader.new).isLoaded = true ∧
          ((sampleRun.ocrLoader.getD OCRDynamicLoader.new).pluginReady sampleEnv).1 = true) ∨
        analyzeCalls (sampleRun.getRecogitionResult sampleEnv).2.trace =
          analyzeCalls sampleRun.trace) ∧
      (sampleRun.getRecogitionResult sampleEnv).1 =
        (if (sampleRun.ocrLoader.getD OCRDynamicLoader.new).isLoaded = true ∧
            ((sampleRun.ocrLoader.getD OCRDynamicLoader.new).pluginReady sampleEnv).1 = true then
          if (((sampleRun.ocrLoader.getD OCRDynamicLoader.new).pluginReady sampleEnv).2.analyze
              sampleEnv).1 = true then
            ((((sampleRun.ocrLoader.getD OCRDynamicLoader.new).pluginReady sampleEnv).2.analyze
              sampleEnv).2.getSimpleResult sampleEnv).1
          else ""
        else "")) ∧
    (sampleRun.getRecogitionResult sampleEnv).1 = "text" ∧
    analyzeCalls (sampleRun.getRecogitionResult sampleEnv).2.trace =
      analyzeCalls sampleRun.trace + 1 :=
  ⟨C15_getRecogitionResult_flag_and_result sampleEnv [(sampleEnv, .setImage sampleImage)]
    sampleEnv (sampleRun.ocrLoader.getD OCRDynamicLoader.new) (by decide), by decide, by decide⟩

/-- C16. Along the trace of any sequence of public loader calls from construction
the handle discipline holds: `ocr_create` is called only while no handle is alive,
`ocr_destroy` is passed only the non-null handle that is alive, after which none
is alive until the next `ocr_create` (so a handle is destroyed at most once), and
the library image is unloaded only while no handle is alive (so a handle is
destroyed before the unload); the handle alive at the end of the trace is the one
the loader holds.  After `unloadLibrary` no handle is held.  The same holds for the
loader the destructor of any engine leaves, after its `destroyOCR`,
`unloadLibrary` and `~OCRDynamicLoader`.  The discipline rejects a second
`ocr_destroy` of a handle and an unload while a handle is alive. -/
theorem C16_handle_destroyed_once_before_unload (ops : List (Env × OCRDynamicLoader.Op))
    (env0 : Env) (calls : List (Env × OCREngine.Call)) :
    lifecycle (OCRDynamicLoader.runOps ops OCRDynamicLoader.new).trace 0 =
        some (OCRDynamicLoader.runOps ops OCRDynamicLoader.new).m_ocrHandle ∧
      lifecycle (OCRDynamicLoader.runOps ops OCRDynamicLoader.new).unloadLibrary.trace 0 =
        some 0 ∧
      (OCRDynamicLoader.runOps ops OCRDynamicLoader.new).unloadLibrary.m_ocrHandle = 0 ∧
      (OCREngine.runCalls calls (OCREngine.new env0)).delete.2.map
          (fun l => (lifecycle l.trace 0, l.m_ocrHandle, l.isLoaded)) =
        some (some 0, 0, false) ∧
      (OCREngine.runCalls calls (OCREngine.new env0)).delete.1.ocrLoader = none ∧
      lifecycle [.ocr_create 7, .ocr_destroy 7, .ocr_destroy 7] 0 = none ∧
      lifecycle [.ocr_create 7, .library_unload "libdtk6ocr.so"] 0 = none ∧
      lifecycle [.ocr_create 7, .ocr_destroy 7, .library_unload "libdtk6ocr.so"] 0 =
        some 0 := by
  have hd := disciplined_runOps ops disciplined_new
  have hu := disciplined_unloadLibrary hd
  refine ⟨hd.2, ?_, hu.2, ?_, ?_, by decide, by decide, by decide⟩
  · have := hu.1.2
    rwa [hu.2] at this
  · obtain ⟨l, hl, hdl⟩ := disciplined_engine_runCalls calls (disciplined_engine_new env0)
    have h1 := disciplined_unloadLibrary (disciplined_destroyOCR hdl)
    have h2 := disciplined_unloadLibrary h1.1
    have h3 := h2.1.2
    rw [h2.2] at h3
    have hload : l.destroyOCR.unloadLibrary.unloadLibrary.isLoaded = false :=
      (unloadLibrary_fields _).2.2.2.1
    simp only [OCREngine.delete, hl, Option.map_some', OCRDynamicLoader.delete, h3, h2.2,
      hload]
  · obtain ⟨l, hl, -⟩ := disciplined_engine_runCalls calls (disciplined_engine_new env0)
    simp only [OCREngine.delete, hl]

end DeepinOcr
